import Mathlib

/-!
Verification of the product knowledge-base service (`app.py`).

This file gives a shallow embedding of the data-access layer of the
repository's FastAPI application: the tag codec (`_parse_tags` together with
the `json.dumps` encoding used on create/update), the `LIKE`-based search
endpoint, the CRUD handlers (`create_item`, `update_item`, `delete_item`) and
the image subsystem (`upload_images`, `list_images`, `serve_image`,
`delete_image`).  The relational store is modelled as an explicit state
(`DB`): a list of `items` rows, a list of `item_images` rows and the next
auto-increment image id.  SQL behaviour is embedded as follows:

* `lower(x)` / Python `str.lower` — char-wise lower-casing by the Unicode
  simple lowercase mapping (`pyLowerChar`, driven by the `lowerTable`
  data).  Python's `str.lower` (and the backend's `lower()`) additionally
  special-case `U+0130` (`İ`, whose lower case is two characters) and
  `U+03A3` (`Σ`, subject to the final-sigma context rule); data containing
  these two characters is excluded from claim C1 by its `lowerExact`
  hypotheses;
* `LIKE '%q%'` — `LIKE` with the wildcards `%` (any sequence) and `_` (any
  single character) and the backend's default escape character `\`
  (PostgreSQL: `\c` matches the literal character `c`), embedded as a
  tokeniser `likeToks` followed by the wildcard matcher `likeMatchT`;
* `ORDER BY id` — lexicographic code-point order on the id text (`lexLe`),
  i.e. binary collation;
* `OFFSET`/`LIMIT` — `List.drop`/`List.take`; the default backend
  (PostgreSQL, see the `DATABASE_URL` fallback) rejects negative `LIMIT` or
  `OFFSET`, which surfaces as a 500 response, modelled as an error result;
* `ON DELETE CASCADE` on `item_images.item_id` (enforced by the backend) —
  deleting an item removes all of its image rows.

Python's `json.loads` is embedded as a recursive-descent parser over the
character list (`json_loads`), and `json.dumps` of a list of strings (the
only shape the code ever dumps) as `jsonDumpsList`, including the
`ensure_ascii` escaping rules.  Two documented approximations in dark
corners of `json`: `str()` of a parsed JSON float is approximated by its
source lexeme (Python renders the shortest round-tripping decimal, which
is not modelled; claim C3 is confined by `pyStrExact` to values free of
floats and of the untreated corners of nested `repr`), and strings
containing lone UTF-16 surrogates (which Python `str` can hold but a
Unicode scalar cannot) are outside the model's domain.
-/

namespace RHelp

/-! ## Character and string utilities -/

/-- The characters Python `str.strip()` removes, i.e. those on which
`str.isspace()` holds: the ASCII whitespace `\t\n\v\f\r` and space, the
control characters `U+001C`–`U+001F`, `U+0085`, no-break space `U+00A0`,
`U+1680`, the spaces `U+2000`–`U+200A`, the separators `U+2028`/`U+2029`,
`U+202F`, `U+205F` and `U+3000`. -/
def isPyWs (c : Char) : Bool :=
  c = ' ' || c = '\t' || c = '\n' || c = '\r' || c = '\x0b' || c = '\x0c'
  || (0x1c ≤ c.toNat && c.toNat ≤ 0x1f) || c.toNat = 0x85 || c.toNat = 0xa0
  || c.toNat = 0x1680 || (0x2000 ≤ c.toNat && c.toNat ≤ 0x200a)
  || c.toNat = 0x2028 || c.toNat = 0x2029 || c.toNat = 0x202f
  || c.toNat = 0x205f || c.toNat = 0x3000

/-- Trim `isPyWs` characters from both ends of a character list. -/
def trimChars (l : List Char) : List Char :=
  ((l.dropWhile isPyWs).reverse.dropWhile isPyWs).reverse

/-- Python `str.strip()`. -/
def pyStrip (s : String) : String := ⟨trimChars s.data⟩

/-- Shorthand for a character given by its code point. -/
def cp (n : Nat) : Char := Char.ofNat n

/-- The ASCII part of the lowercase mapping: `A`–`Z` to `a`–`z`. -/
def asciiLower : List (Char × Char) :=
  [('A', 'a'), ('B', 'b'), ('C', 'c'), ('D', 'd'), ('E', 'e'), ('F', 'f'), ('G', 'g'),
   ('H', 'h'), ('I', 'i'), ('J', 'j'), ('K', 'k'), ('L', 'l'), ('M', 'm'), ('N', 'n'),
   ('O', 'o'), ('P', 'p'), ('Q', 'q'), ('R', 'r'), ('S', 's'), ('T', 't'), ('U', 'u'),
   ('V', 'v'), ('W', 'w'), ('X', 'x'), ('Y', 'y'), ('Z', 'z')]

/-- Slice of the simple lowercase mapping table. -/
def lowerTabA : List (Char × Char) := [
  (cp 0xc0, cp 0xe0), (cp 0xc1, cp 0xe1), (cp 0xc2, cp 0xe2), (cp 0xc3, cp 0xe3), (cp 0xc4, cp 0xe4), (cp 0xc5, cp 0xe5),
  (cp 0xc6, cp 0xe6), (cp 0xc7, cp 0xe7), (cp 0xc8, cp 0xe8), (cp 0xc9, cp 0xe9), (cp 0xca, cp 0xea), (cp 0xcb, cp 0xeb),
  (cp 0xcc, cp 0xec), (cp 0xcd, cp 0xed), (cp 0xce, cp 0xee), (cp 0xcf, cp 0xef), (cp 0xd0, cp 0xf0), (cp 0xd1, cp 0xf1),
  (cp 0xd2, cp 0xf2), (cp 0xd3, cp 0xf3), (cp 0xd4, cp 0xf4), (cp 0xd5, cp 0xf5), (cp 0xd6, cp 0xf6), (cp 0xd8, cp 0xf8),
  (cp 0xd9, cp 0xf9), (cp 0xda, cp 0xfa), (cp 0xdb, cp 0xfb), (cp 0xdc, cp 0xfc), (cp 0xdd, cp 0xfd), (cp 0xde, cp 0xfe),
  (cp 0x100, cp 0x101), (cp 0x102, cp 0x103), (cp 0x104, cp 0x105), (cp 0x106, cp 0x107), (cp 0x108, cp 0x109), (cp 0x10a, cp 0x10b),
  (cp 0x10c, cp 0x10d), (cp 0x10e, cp 0x10f), (cp 0x110, cp 0x111), (cp 0x112, cp 0x113), (cp 0x114, cp 0x115), (cp 0x116, cp 0x117),
  (cp 0x118, cp 0x119), (cp 0x11a, cp 0x11b), (cp 0x11c, cp 0x11d), (cp 0x11e, cp 0x11f), (cp 0x120, cp 0x121), (cp 0x122, cp 0x123),
  (cp 0x124, cp 0x125), (cp 0x126, cp 0x127), (cp 0x128, cp 0x129), (cp 0x12a, cp 0x12b), (cp 0x12c, cp 0x12d), (cp 0x12e, cp 0x12f),
  (cp 0x132, cp 0x133), (cp 0x134, cp 0x135), (cp 0x136, cp 0x137), (cp 0x139, cp 0x13a), (cp 0x13b, cp 0x13c), (cp 0x13d, cp 0x13e),
  (cp 0x13f, cp 0x140), (cp 0x141, cp 0x142), (cp 0x143, cp 0x144), (cp 0x145, cp 0x146), (cp 0x147, cp 0x148), (cp 0x14a, cp 0x14b),
  (cp 0x14c, cp 0x14d), (cp 0x14e, cp 0x14f), (cp 0x150, cp 0x151), (cp 0x152, cp 0x153), (cp 0x154, cp 0x155), (cp 0x156, cp 0x157),
  (cp 0x158, cp 0x159), (cp 0x15a, cp 0x15b), (cp 0x15c, cp 0x15d), (cp 0x15e, cp 0x15f), (cp 0x160, cp 0x161), (cp 0x162, cp 0x163),
  (cp 0x164, cp 0x165), (cp 0x166, cp 0x167), (cp 0x168, cp 0x169), (cp 0x16a, cp 0x16b), (cp 0x16c, cp 0x16d), (cp 0x16e, cp 0x16f),
  (cp 0x170, cp 0x171), (cp 0x172, cp 0x173), (cp 0x174, cp 0x175), (cp 0x176, cp 0x177), (cp 0x178, cp 0xff), (cp 0x179, cp 0x17a),
  (cp 0x17b, cp 0x17c), (cp 0x17d, cp 0x17e), (cp 0x181, cp 0x253), (cp 0x182, cp 0x183), (cp 0x184, cp 0x185), (cp 0x186, cp 0x254),
  (cp 0x187, cp 0x188), (cp 0x189, cp 0x256), (cp 0x18a, cp 0x257), (cp 0x18b, cp 0x18c), (cp 0x18e, cp 0x1dd), (cp 0x18f, cp 0x259),
  (cp 0x190, cp 0x25b), (cp 0x191, cp 0x192), (cp 0x193, cp 0x260), (cp 0x194, cp 0x263), (cp 0x196, cp 0x269), (cp 0x197, cp 0x268),
  (cp 0x198, cp 0x199), (cp 0x19c, cp 0x26f), (cp 0x19d, cp 0x272), (cp 0x19f, cp 0x275), (cp 0x1a0, cp 0x1a1), (cp 0x1a2, cp 0x1a3),
  (cp 0x1a4, cp 0x1a5), (cp 0x1a6, cp 0x280), (cp 0x1a7, cp 0x1a8), (cp 0x1a9, cp 0x283), (cp 0x1ac, cp 0x1ad), (cp 0x1ae, cp 0x288)]

/-- Slice of the simple lowercase mapping table. -/
def lowerTabB : List (Char × Char) := [
  (cp 0x1af, cp 0x1b0), (cp 0x1b1, cp 0x28a), (cp 0x1b2, cp 0x28b), (cp 0x1b3, cp 0x1b4), (cp 0x1b5, cp 0x1b6), (cp 0x1b7, cp 0x292),
  (cp 0x1b8, cp 0x1b9), (cp 0x1bc, cp 0x1bd), (cp 0x1c4, cp 0x1c6), (cp 0x1c5, cp 0x1c6), (cp 0x1c7, cp 0x1c9), (cp 0x1c8, cp 0x1c9),
  (cp 0x1ca, cp 0x1cc), (cp 0x1cb, cp 0x1cc), (cp 0x1cd, cp 0x1ce), (cp 0x1cf, cp 0x1d0), (cp 0x1d1, cp 0x1d2), (cp 0x1d3, cp 0x1d4),
  (cp 0x1d5, cp 0x1d6), (cp 0x1d7, cp 0x1d8), (cp 0x1d9, cp 0x1da), (cp 0x1db, cp 0x1dc), (cp 0x1de, cp 0x1df), (cp 0x1e0, cp 0x1e1),
  (cp 0x1e2, cp 0x1e3), (cp 0x1e4, cp 0x1e5), (cp 0x1e6, cp 0x1e7), (cp 0x1e8, cp 0x1e9), (cp 0x1ea, cp 0x1eb), (cp 0x1ec, cp 0x1ed),
  (cp 0x1ee, cp 0x1ef), (cp 0x1f1, cp 0x1f3), (cp 0x1f2, cp 0x1f3), (cp 0x1f4, cp 0x1f5), (cp 0x1f6, cp 0x195), (cp 0x1f7, cp 0x1bf),
  (cp 0x1f8, cp 0x1f9), (cp 0x1fa, cp 0x1fb), (cp 0x1fc, cp 0x1fd), (cp 0x1fe, cp 0x1ff), (cp 0x200, cp 0x201), (cp 0x202, cp 0x203),
  (cp 0x204, cp 0x205), (cp 0x206, cp 0x207), (cp 0x208, cp 0x209), (cp 0x20a, cp 0x20b), (cp 0x20c, cp 0x20d), (cp 0x20e, cp 0x20f),
  (cp 0x210, cp 0x211), (cp 0x212, cp 0x213), (cp 0x214, cp 0x215), (cp 0x216, cp 0x217), (cp 0x218, cp 0x219), (cp 0x21a, cp 0x21b),
  (cp 0x21c, cp 0x21d), (cp 0x21e, cp 0x21f), (cp 0x220, cp 0x19e), (cp 0x222, cp 0x223), (cp 0x224, cp 0x225), (cp 0x226, cp 0x227),
  (cp 0x228, cp 0x229), (cp 0x22a, cp 0x22b), (cp 0x22c, cp 0x22d), (cp 0x22e, cp 0x22f), (cp 0x230, cp 0x231), (cp 0x232, cp 0x233),
  (cp 0x23a, cp 0x2c65), (cp 0x23b, cp 0x23c), (cp 0x23d, cp 0x19a), (cp 0x23e, cp 0x2c66), (cp 0x241, cp 0x242), (cp 0x243, cp 0x180),
  (cp 0x244, cp 0x289), (cp 0x245, cp 0x28c), (cp 0x246, cp 0x247), (cp 0x248, cp 0x249), (cp 0x24a, cp 0x24b), (cp 0x24c, cp 0x24d),
  (cp 0x24e, cp 0x24f), (cp 0x370, cp 0x371), (cp 0x372, cp 0x373), (cp 0x376, cp 0x377), (cp 0x37f, cp 0x3f3), (cp 0x386, cp 0x3ac),
  (cp 0x388, cp 0x3ad), (cp 0x389, cp 0x3ae), (cp 0x38a, cp 0x3af), (cp 0x38c, cp 0x3cc), (cp 0x38e, cp 0x3cd), (cp 0x38f, cp 0x3ce),
  (cp 0x391, cp 0x3b1), (cp 0x392, cp 0x3b2), (cp 0x393, cp 0x3b3), (cp 0x394, cp 0x3b4), (cp 0x395, cp 0x3b5), (cp 0x396, cp 0x3b6),
  (cp 0x397, cp 0x3b7), (cp 0x398, cp 0x3b8), (cp 0x399, cp 0x3b9), (cp 0x39a, cp 0x3ba), (cp 0x39b, cp 0x3bb), (cp 0x39c, cp 0x3bc),
  (cp 0x39d, cp 0x3bd), (cp 0x39e, cp 0x3be), (cp 0x39f, cp 0x3bf), (cp 0x3a0, cp 0x3c0), (cp 0x3a1, cp 0x3c1), (cp 0x3a3, cp 0x3c3),
  (cp 0x3a4, cp 0x3c4), (cp 0x3a5, cp 0x3c5), (cp 0x3a6, cp 0x3c6), (cp 0x3a7, cp 0x3c7), (cp 0x3a8, cp 0x3c8), (cp 0x3a9, cp 0x3c9),
  (cp 0x3aa, cp 0x3ca), (cp 0x3ab, cp 0x3cb), (cp 0x3cf, cp 0x3d7), (cp 0x3d8, cp 0x3d9), (cp 0x3da, cp 0x3db), (cp 0x3dc, cp 0x3dd)]

/-- Slice of the simple lowercase mapping table. -/
def lowerTabC : List (Char × Char) := [
  (cp 0x3de, cp 0x3df), (cp 0x3e0, cp 0x3e1), (cp 0x3e2, cp 0x3e3), (cp 0x3e4, cp 0x3e5), (cp 0x3e6, cp 0x3e7), (cp 0x3e8, cp 0x3e9),
  (cp 0x3ea, cp 0x3eb), (cp 0x3ec, cp 0x3ed), (cp 0x3ee, cp 0x3ef), (cp 0x3f4, cp 0x3b8), (cp 0x3f7, cp 0x3f8), (cp 0x3f9, cp 0x3f2),
  (cp 0x3fa, cp 0x3fb), (cp 0x3fd, cp 0x37b), (cp 0x3fe, cp 0x37c), (cp 0x3ff, cp 0x37d), (cp 0x400, cp 0x450), (cp 0x401, cp 0x451),
  (cp 0x402, cp 0x452), (cp 0x403, cp 0x453), (cp 0x404, cp 0x454), (cp 0x405, cp 0x455), (cp 0x406, cp 0x456), (cp 0x407, cp 0x457),
  (cp 0x408, cp 0x458), (cp 0x409, cp 0x459), (cp 0x40a, cp 0x45a), (cp 0x40b, cp 0x45b), (cp 0x40c, cp 0x45c), (cp 0x40d, cp 0x45d),
  (cp 0x40e, cp 0x45e), (cp 0x40f, cp 0x45f), (cp 0x410, cp 0x430), (cp 0x411, cp 0x431), (cp 0x412, cp 0x432), (cp 0x413, cp 0x433),
  (cp 0x414, cp 0x434), (cp 0x415, cp 0x435), (cp 0x416, cp 0x436), (cp 0x417, cp 0x437), (cp 0x418, cp 0x438), (cp 0x419, cp 0x439),
  (cp 0x41a, cp 0x43a), (cp 0x41b, cp 0x43b), (cp 0x41c, cp 0x43c), (cp 0x41d, cp 0x43d), (cp 0x41e, cp 0x43e), (cp 0x41f, cp 0x43f),
  (cp 0x420, cp 0x440), (cp 0x421, cp 0x441), (cp 0x422, cp 0x442), (cp 0x423, cp 0x443), (cp 0x424, cp 0x444), (cp 0x425, cp 0x445),
  (cp 0x426, cp 0x446), (cp 0x427, cp 0x447), (cp 0x428, cp 0x448), (cp 0x429, cp 0x449), (cp 0x42a, cp 0x44a), (cp 0x42b, cp 0x44b),
  (cp 0x42c, cp 0x44c), (cp 0x42d, cp 0x44d), (cp 0x42e, cp 0x44e), (cp 0x42f, cp 0x44f), (cp 0x460, cp 0x461), (cp 0x462, cp 0x463),
  (cp 0x464, cp 0x465), (cp 0x466, cp 0x467), (cp 0x468, cp 0x469), (cp 0x46a, cp 0x46b), (cp 0x46c, cp 0x46d), (cp 0x46e, cp 0x46f),
  (cp 0x470, cp 0x471), (cp 0x472, cp 0x473), (cp 0x474, cp 0x475), (cp 0x476, cp 0x477), (cp 0x478, cp 0x479), (cp 0x47a, cp 0x47b),
  (cp 0x47c, cp 0x47d), (cp 0x47e, cp 0x47f), (cp 0x480, cp 0x481), (cp 0x48a, cp 0x48b), (cp 0x48c, cp 0x48d), (cp 0x48e, cp 0x48f),
  (cp 0x490, cp 0x491), (cp 0x492, cp 0x493), (cp 0x494, cp 0x495), (cp 0x496, cp 0x497), (cp 0x498, cp 0x499), (cp 0x49a, cp 0x49b),
  (cp 0x49c, cp 0x49d), (cp 0x49e, cp 0x49f), (cp 0x4a0, cp 0x4a1), (cp 0x4a2, cp 0x4a3), (cp 0x4a4, cp 0x4a5), (cp 0x4a6, cp 0x4a7),
  (cp 0x4a8, cp 0x4a9), (cp 0x4aa, cp 0x4ab), (cp 0x4ac, cp 0x4ad), (cp 0x4ae, cp 0x4af), (cp 0x4b0, cp 0x4b1), (cp 0x4b2, cp 0x4b3),
  (cp 0x4b4, cp 0x4b5), (cp 0x4b6, cp 0x4b7), (cp 0x4b8, cp 0x4b9), (cp 0x4ba, cp 0x4bb), (cp 0x4bc, cp 0x4bd), (cp 0x4be, cp 0x4bf),
  (cp 0x4c0, cp 0x4cf), (cp 0x4c1, cp 0x4c2), (cp 0x4c3, cp 0x4c4), (cp 0x4c5, cp 0x4c6), (cp 0x4c7, cp 0x4c8), (cp 0x4c9, cp 0x4ca),
  (cp 0x4cb, cp 0x4cc), (cp 0x4cd, cp 0x4ce), (cp 0x4d0, cp 0x4d1), (cp 0x4d2, cp 0x4d3), (cp 0x4d4, cp 0x4d5), (cp 0x4d6, cp 0x4d7)]

/-- Slice of the simple lowercase mapping table. -/
def lowerTabD : List (Char × Char) := [
  (cp 0x4d8, cp 0x4d9), (cp 0x4da, cp 0x4db), (cp 0x4dc, cp 0x4dd), (cp 0x4de, cp 0x4df), (cp 0x4e0, cp 0x4e1), (cp 0x4e2, cp 0x4e3),
  (cp 0x4e4, cp 0x4e5), (cp 0x4e6, cp 0x4e7), (cp 0x4e8, cp 0x4e9), (cp 0x4ea, cp 0x4eb), (cp 0x4ec, cp 0x4ed), (cp 0x4ee, cp 0x4ef),
  (cp 0x4f0, cp 0x4f1), (cp 0x4f2, cp 0x4f3), (cp 0x4f4, cp 0x4f5), (cp 0x4f6, cp 0x4f7), (cp 0x4f8, cp 0x4f9), (cp 0x4fa, cp 0x4fb),
  (cp 0x4fc, cp 0x4fd), (cp 0x4fe, cp 0x4ff), (cp 0x500, cp 0x501), (cp 0x502, cp 0x503), (cp 0x504, cp 0x505), (cp 0x506, cp 0x507),
  (cp 0x508, cp 0x509), (cp 0x50a, cp 0x50b), (cp 0x50c, cp 0x50d), (cp 0x50e, cp 0x50f), (cp 0x510, cp 0x511), (cp 0x512, cp 0x513),
  (cp 0x514, cp 0x515), (cp 0x516, cp 0x517), (cp 0x518, cp 0x519), (cp 0x51a, cp 0x51b), (cp 0x51c, cp 0x51d), (cp 0x51e, cp 0x51f),
  (cp 0x520, cp 0x521), (cp 0x522, cp 0x523), (cp 0x524, cp 0x525), (cp 0x526, cp 0x527), (cp 0x528, cp 0x529), (cp 0x52a, cp 0x52b),
  (cp 0x52c, cp 0x52d), (cp 0x52e, cp 0x52f), (cp 0x531, cp 0x561), (cp 0x532, cp 0x562), (cp 0x533, cp 0x563), (cp 0x534, cp 0x564),
  (cp 0x535, cp 0x565), (cp 0x536, cp 0x566), (cp 0x537, cp 0x567), (cp 0x538, cp 0x568), (cp 0x539, cp 0x569), (cp 0x53a, cp 0x56a),
  (cp 0x53b, cp 0x56b), (cp 0x53c, cp 0x56c), (cp 0x53d, cp 0x56d), (cp 0x53e, cp 0x56e), (cp 0x53f, cp 0x56f), (cp 0x540, cp 0x570),
  (cp 0x541, cp 0x571), (cp 0x542, cp 0x572), (cp 0x543, cp 0x573), (cp 0x544, cp 0x574), (cp 0x545, cp 0x575), (cp 0x546, cp 0x576),
  (cp 0x547, cp 0x577), (cp 0x548, cp 0x578), (cp 0x549, cp 0x579), (cp 0x54a, cp 0x57a), (cp 0x54b, cp 0x57b), (cp 0x54c, cp 0x57c),
  (cp 0x54d, cp 0x57d), (cp 0x54e, cp 0x57e), (cp 0x54f, cp 0x57f), (cp 0x550, cp 0x580), (cp 0x551, cp 0x581), (cp 0x552, cp 0x582),
  (cp 0x553, cp 0x583), (cp 0x554, cp 0x584), (cp 0x555, cp 0x585), (cp 0x556, cp 0x586), (cp 0x10a0, cp 0x2d00), (cp 0x10a1, cp 0x2d01),
  (cp 0x10a2, cp 0x2d02), (cp 0x10a3, cp 0x2d03), (cp 0x10a4, cp 0x2d04), (cp 0x10a5, cp 0x2d05), (cp 0x10a6, cp 0x2d06), (cp 0x10a7, cp 0x2d07),
  (cp 0x10a8, cp 0x2d08), (cp 0x10a9, cp 0x2d09), (cp 0x10aa, cp 0x2d0a), (cp 0x10ab, cp 0x2d0b), (cp 0x10ac, cp 0x2d0c), (cp 0x10ad, cp 0x2d0d),
  (cp 0x10ae, cp 0x2d0e), (cp 0x10af, cp 0x2d0f), (cp 0x10b0, cp 0x2d10), (cp 0x10b1, cp 0x2d11), (cp 0x10b2, cp 0x2d12), (cp 0x10b3, cp 0x2d13),
  (cp 0x10b4, cp 0x2d14), (cp 0x10b5, cp 0x2d15), (cp 0x10b6, cp 0x2d16), (cp 0x10b7, cp 0x2d17), (cp 0x10b8, cp 0x2d18), (cp 0x10b9, cp 0x2d19),
  (cp 0x10ba, cp 0x2d1a), (cp 0x10bb, cp 0x2d1b), (cp 0x10bc, cp 0x2d1c), (cp 0x10bd, cp 0x2d1d), (cp 0x10be, cp 0x2d1e), (cp 0x10bf, cp 0x2d1f),
  (cp 0x10c0, cp 0x2d20), (cp 0x10c1, cp 0x2d21), (cp 0x10c2, cp 0x2d22), (cp 0x10c3, cp 0x2d23), (cp 0x10c4, cp 0x2d24), (cp 0x10c5, cp 0x2d25)]

/-- Slice of the simple lowercase mapping table. -/
def lowerTabE : List (Char × Char) := [
  (cp 0x10c7, cp 0x2d27), (cp 0x10cd, cp 0x2d2d), (cp 0x13a0, cp 0xab70), (cp 0x13a1, cp 0xab71), (cp 0x13a2, cp 0xab72), (cp 0x13a3, cp 0xab73),
  (cp 0x13a4, cp 0xab74), (cp 0x13a5, cp 0xab75), (cp 0x13a6, cp 0xab76), (cp 0x13a7, cp 0xab77), (cp 0x13a8, cp 0xab78), (cp 0x13a9, cp 0xab79),
  (cp 0x13aa, cp 0xab7a), (cp 0x13ab, cp 0xab7b), (cp 0x13ac, cp 0xab7c), (cp 0x13ad, cp 0xab7d), (cp 0x13ae, cp 0xab7e), (cp 0x13af, cp 0xab7f),
  (cp 0x13b0, cp 0xab80), (cp 0x13b1, cp 0xab81), (cp 0x13b2, cp 0xab82), (cp 0x13b3, cp 0xab83), (cp 0x13b4, cp 0xab84), (cp 0x13b5, cp 0xab85),
  (cp 0x13b6, cp 0xab86), (cp 0x13b7, cp 0xab87), (cp 0x13b8, cp 0xab88), (cp 0x13b9, cp 0xab89), (cp 0x13ba, cp 0xab8a), (cp 0x13bb, cp 0xab8b),
  (cp 0x13bc, cp 0xab8c), (cp 0x13bd, cp 0xab8d), (cp 0x13be, cp 0xab8e), (cp 0x13bf, cp 0xab8f), (cp 0x13c0, cp 0xab90), (cp 0x13c1, cp 0xab91),
  (cp 0x13c2, cp 0xab92), (cp 0x13c3, cp 0xab93), (cp 0x13c4, cp 0xab94), (cp 0x13c5, cp 0xab95), (cp 0x13c6, cp 0xab96), (cp 0x13c7, cp 0xab97),
  (cp 0x13c8, cp 0xab98), (cp 0x13c9, cp 0xab99), (cp 0x13ca, cp 0xab9a), (cp 0x13cb, cp 0xab9b), (cp 0x13cc, cp 0xab9c), (cp 0x13cd, cp 0xab9d),
  (cp 0x13ce, cp 0xab9e), (cp 0x13cf, cp 0xab9f), (cp 0x13d0, cp 0xaba0), (cp 0x13d1, cp 0xaba1), (cp 0x13d2, cp 0xaba2), (cp 0x13d3, cp 0xaba3),
  (cp 0x13d4, cp 0xaba4), (cp 0x13d5, cp 0xaba5), (cp 0x13d6, cp 0xaba6), (cp 0x13d7, cp 0xaba7), (cp 0x13d8, cp 0xaba8), (cp 0x13d9, cp 0xaba9),
  (cp 0x13da, cp 0xabaa), (cp 0x13db, cp 0xabab), (cp 0x13dc, cp 0xabac), (cp 0x13dd, cp 0xabad), (cp 0x13de, cp 0xabae), (cp 0x13df, cp 0xabaf),
  (cp 0x13e0, cp 0xabb0), (cp 0x13e1, cp 0xabb1), (cp 0x13e2, cp 0xabb2), (cp 0x13e3, cp 0xabb3), (cp 0x13e4, cp 0xabb4), (cp 0x13e5, cp 0xabb5),
  (cp 0x13e6, cp 0xabb6), (cp 0x13e7, cp 0xabb7), (cp 0x13e8, cp 0xabb8), (cp 0x13e9, cp 0xabb9), (cp 0x13ea, cp 0xabba), (cp 0x13eb, cp 0xabbb),
  (cp 0x13ec, cp 0xabbc), (cp 0x13ed, cp 0xabbd), (cp 0x13ee, cp 0xabbe), (cp 0x13ef, cp 0xabbf), (cp 0x13f0, cp 0x13f8), (cp 0x13f1, cp 0x13f9),
  (cp 0x13f2, cp 0x13fa), (cp 0x13f3, cp 0x13fb), (cp 0x13f4, cp 0x13fc), (cp 0x13f5, cp 0x13fd), (cp 0x1c90, cp 0x10d0), (cp 0x1c91, cp 0x10d1),
  (cp 0x1c92, cp 0x10d2), (cp 0x1c93, cp 0x10d3), (cp 0x1c94, cp 0x10d4), (cp 0x1c95, cp 0x10d5), (cp 0x1c96, cp 0x10d6), (cp 0x1c97, cp 0x10d7),
  (cp 0x1c98, cp 0x10d8), (cp 0x1c99, cp 0x10d9), (cp 0x1c9a, cp 0x10da), (cp 0x1c9b, cp 0x10db), (cp 0x1c9c, cp 0x10dc), (cp 0x1c9d, cp 0x10dd),
  (cp 0x1c9e, cp 0x10de), (cp 0x1c9f, cp 0x10df), (cp 0x1ca0, cp 0x10e0), (cp 0x1ca1, cp 0x10e1), (cp 0x1ca2, cp 0x10e2), (cp 0x1ca3, cp 0x10e3),
  (cp 0x1ca4, cp 0x10e4), (cp 0x1ca5, cp 0x10e5), (cp 0x1ca6, cp 0x10e6), (cp 0x1ca7, cp 0x10e7), (cp 0x1ca8, cp 0x10e8), (cp 0x1ca9, cp 0x10e9),
  (cp 0x1caa, cp 0x10ea), (cp 0x1cab, cp 0x10eb), (cp 0x1cac, cp 0x10ec), (cp 0x1cad, cp 0x10ed), (cp 0x1cae, cp 0x10ee), (cp 0x1caf, cp 0x10ef)]

/-- Slice of the simple lowercase mapping table. -/
def lowerTabF : List (Char × Char) := [
  (cp 0x1cb0, cp 0x10f0), (cp 0x1cb1, cp 0x10f1), (cp 0x1cb2, cp 0x10f2), (cp 0x1cb3, cp 0x10f3), (cp 0x1cb4, cp 0x10f4), (cp 0x1cb5, cp 0x10f5),
  (cp 0x1cb6, cp 0x10f6), (cp 0x1cb7, cp 0x10f7), (cp 0x1cb8, cp 0x10f8), (cp 0x1cb9, cp 0x10f9), (cp 0x1cba, cp 0x10fa), (cp 0x1cbd, cp 0x10fd),
  (cp 0x1cbe, cp 0x10fe), (cp 0x1cbf, cp 0x10ff), (cp 0x1e00, cp 0x1e01), (cp 0x1e02, cp 0x1e03), (cp 0x1e04, cp 0x1e05), (cp 0x1e06, cp 0x1e07),
  (cp 0x1e08, cp 0x1e09), (cp 0x1e0a, cp 0x1e0b), (cp 0x1e0c, cp 0x1e0d), (cp 0x1e0e, cp 0x1e0f), (cp 0x1e10, cp 0x1e11), (cp 0x1e12, cp 0x1e13),
  (cp 0x1e14, cp 0x1e15), (cp 0x1e16, cp 0x1e17), (cp 0x1e18, cp 0x1e19), (cp 0x1e1a, cp 0x1e1b), (cp 0x1e1c, cp 0x1e1d), (cp 0x1e1e, cp 0x1e1f),
  (cp 0x1e20, cp 0x1e21), (cp 0x1e22, cp 0x1e23), (cp 0x1e24, cp 0x1e25), (cp 0x1e26, cp 0x1e27), (cp 0x1e28, cp 0x1e29), (cp 0x1e2a, cp 0x1e2b),
  (cp 0x1e2c, cp 0x1e2d), (cp 0x1e2e, cp 0x1e2f), (cp 0x1e30, cp 0x1e31), (cp 0x1e32, cp 0x1e33), (cp 0x1e34, cp 0x1e35), (cp 0x1e36, cp 0x1e37),
  (cp 0x1e38, cp 0x1e39), (cp 0x1e3a, cp 0x1e3b), (cp 0x1e3c, cp 0x1e3d), (cp 0x1e3e, cp 0x1e3f), (cp 0x1e40, cp 0x1e41), (cp 0x1e42, cp 0x1e43),
  (cp 0x1e44, cp 0x1e45), (cp 0x1e46, cp 0x1e47), (cp 0x1e48, cp 0x1e49), (cp 0x1e4a, cp 0x1e4b), (cp 0x1e4c, cp 0x1e4d), (cp 0x1e4e, cp 0x1e4f),
  (cp 0x1e50, cp 0x1e51), (cp 0x1e52, cp 0x1e53), (cp 0x1e54, cp 0x1e55), (cp 0x1e56, cp 0x1e57), (cp 0x1e58, cp 0x1e59), (cp 0x1e5a, cp 0x1e5b),
  (cp 0x1e5c, cp 0x1e5d), (cp 0x1e5e, cp 0x1e5f), (cp 0x1e60, cp 0x1e61), (cp 0x1e62, cp 0x1e63), (cp 0x1e64, cp 0x1e65), (cp 0x1e66, cp 0x1e67),
  (cp 0x1e68, cp 0x1e69), (cp 0x1e6a, cp 0x1e6b), (cp 0x1e6c, cp 0x1e6d), (cp 0x1e6e, cp 0x1e6f), (cp 0x1e70, cp 0x1e71), (cp 0x1e72, cp 0x1e73),
  (cp 0x1e74, cp 0x1e75), (cp 0x1e76, cp 0x1e77), (cp 0x1e78, cp 0x1e79), (cp 0x1e7a, cp 0x1e7b), (cp 0x1e7c, cp 0x1e7d), (cp 0x1e7e, cp 0x1e7f),
  (cp 0x1e80, cp 0x1e81), (cp 0x1e82, cp 0x1e83), (cp 0x1e84, cp 0x1e85), (cp 0x1e86, cp 0x1e87), (cp 0x1e88, cp 0x1e89), (cp 0x1e8a, cp 0x1e8b),
  (cp 0x1e8c, cp 0x1e8d), (cp 0x1e8e, cp 0x1e8f), (cp 0x1e90, cp 0x1e91), (cp 0x1e92, cp 0x1e93), (cp 0x1e94, cp 0x1e95), (cp 0x1e9e, cp 0xdf),
  (cp 0x1ea0, cp 0x1ea1), (cp 0x1ea2, cp 0x1ea3), (cp 0x1ea4, cp 0x1ea5), (cp 0x1ea6, cp 0x1ea7), (cp 0x1ea8, cp 0x1ea9), (cp 0x1eaa, cp 0x1eab),
  (cp 0x1eac, cp 0x1ead), (cp 0x1eae, cp 0x1eaf), (cp 0x1eb0, cp 0x1eb1), (cp 0x1eb2, cp 0x1eb3), (cp 0x1eb4, cp 0x1eb5), (cp 0x1eb6, cp 0x1eb7),
  (cp 0x1eb8, cp 0x1eb9), (cp 0x1eba, cp 0x1ebb), (cp 0x1ebc, cp 0x1ebd), (cp 0x1ebe, cp 0x1ebf), (cp 0x1ec0, cp 0x1ec1), (cp 0x1ec2, cp 0x1ec3),
  (cp 0x1ec4, cp 0x1ec5), (cp 0x1ec6, cp 0x1ec7), (cp 0x1ec8, cp 0x1ec9), (cp 0x1eca, cp 0x1ecb), (cp 0x1ecc, cp 0x1ecd), (cp 0x1ece, cp 0x1ecf),
  (cp 0x1ed0, cp 0x1ed1), (cp 0x1ed2, cp 0x1ed3), (cp 0x1ed4, cp 0x1ed5), (cp 0x1ed6, cp 0x1ed7), (cp 0x1ed8, cp 0x1ed9), (cp 0x1eda, cp 0x1edb)]

/-- Slice of the simple lowercase mapping table. -/
def lowerTabG : List (Char × Char) := [
  (cp 0x1edc, cp 0x1edd), (cp 0x1ede, cp 0x1edf), (cp 0x1ee0, cp 0x1ee1), (cp 0x1ee2, cp 0x1ee3), (cp 0x1ee4, cp 0x1ee5), (cp 0x1ee6, cp 0x1ee7),
  (cp 0x1ee8, cp 0x1ee9), (cp 0x1eea, cp 0x1eeb), (cp 0x1eec, cp 0x1eed), (cp 0x1eee, cp 0x1eef), (cp 0x1ef0, cp 0x1ef1), (cp 0x1ef2, cp 0x1ef3),
  (cp 0x1ef4, cp 0x1ef5), (cp 0x1ef6, cp 0x1ef7), (cp 0x1ef8, cp 0x1ef9), (cp 0x1efa, cp 0x1efb), (cp 0x1efc, cp 0x1efd), (cp 0x1efe, cp 0x1eff),
  (cp 0x1f08, cp 0x1f00), (cp 0x1f09, cp 0x1f01), (cp 0x1f0a, cp 0x1f02), (cp 0x1f0b, cp 0x1f03), (cp 0x1f0c, cp 0x1f04), (cp 0x1f0d, cp 0x1f05),
  (cp 0x1f0e, cp 0x1f06), (cp 0x1f0f, cp 0x1f07), (cp 0x1f18, cp 0x1f10), (cp 0x1f19, cp 0x1f11), (cp 0x1f1a, cp 0x1f12), (cp 0x1f1b, cp 0x1f13),
  (cp 0x1f1c, cp 0x1f14), (cp 0x1f1d, cp 0x1f15), (cp 0x1f28, cp 0x1f20), (cp 0x1f29, cp 0x1f21), (cp 0x1f2a, cp 0x1f22), (cp 0x1f2b, cp 0x1f23),
  (cp 0x1f2c, cp 0x1f24), (cp 0x1f2d, cp 0x1f25), (cp 0x1f2e, cp 0x1f26), (cp 0x1f2f, cp 0x1f27), (cp 0x1f38, cp 0x1f30), (cp 0x1f39, cp 0x1f31),
  (cp 0x1f3a, cp 0x1f32), (cp 0x1f3b, cp 0x1f33), (cp 0x1f3c, cp 0x1f34), (cp 0x1f3d, cp 0x1f35), (cp 0x1f3e, cp 0x1f36), (cp 0x1f3f, cp 0x1f37),
  (cp 0x1f48, cp 0x1f40), (cp 0x1f49, cp 0x1f41), (cp 0x1f4a, cp 0x1f42), (cp 0x1f4b, cp 0x1f43), (cp 0x1f4c, cp 0x1f44), (cp 0x1f4d, cp 0x1f45),
  (cp 0x1f59, cp 0x1f51), (cp 0x1f5b, cp 0x1f53), (cp 0x1f5d, cp 0x1f55), (cp 0x1f5f, cp 0x1f57), (cp 0x1f68, cp 0x1f60), (cp 0x1f69, cp 0x1f61),
  (cp 0x1f6a, cp 0x1f62), (cp 0x1f6b, cp 0x1f63), (cp 0x1f6c, cp 0x1f64), (cp 0x1f6d, cp 0x1f65), (cp 0x1f6e, cp 0x1f66), (cp 0x1f6f, cp 0x1f67),
  (cp 0x1f88, cp 0x1f80), (cp 0x1f89, cp 0x1f81), (cp 0x1f8a, cp 0x1f82), (cp 0x1f8b, cp 0x1f83), (cp 0x1f8c, cp 0x1f84), (cp 0x1f8d, cp 0x1f85),
  (cp 0x1f8e, cp 0x1f86), (cp 0x1f8f, cp 0x1f87), (cp 0x1f98, cp 0x1f90), (cp 0x1f99, cp 0x1f91), (cp 0x1f9a, cp 0x1f92), (cp 0x1f9b, cp 0x1f93),
  (cp 0x1f9c, cp 0x1f94), (cp 0x1f9d, cp 0x1f95), (cp 0x1f9e, cp 0x1f96), (cp 0x1f9f, cp 0x1f97), (cp 0x1fa8, cp 0x1fa0), (cp 0x1fa9, cp 0x1fa1),
  (cp 0x1faa, cp 0x1fa2), (cp 0x1fab, cp 0x1fa3), (cp 0x1fac, cp 0x1fa4), (cp 0x1fad, cp 0x1fa5), (cp 0x1fae, cp 0x1fa6), (cp 0x1faf, cp 0x1fa7),
  (cp 0x1fb8, cp 0x1fb0), (cp 0x1fb9, cp 0x1fb1), (cp 0x1fba, cp 0x1f70), (cp 0x1fbb, cp 0x1f71), (cp 0x1fbc, cp 0x1fb3), (cp 0x1fc8, cp 0x1f72),
  (cp 0x1fc9, cp 0x1f73), (cp 0x1fca, cp 0x1f74), (cp 0x1fcb, cp 0x1f75), (cp 0x1fcc, cp 0x1fc3), (cp 0x1fd8, cp 0x1fd0), (cp 0x1fd9, cp 0x1fd1),
  (cp 0x1fda, cp 0x1f76), (cp 0x1fdb, cp 0x1f77), (cp 0x1fe8, cp 0x1fe0), (cp 0x1fe9, cp 0x1fe1), (cp 0x1fea, cp 0x1f7a), (cp 0x1feb, cp 0x1f7b),
  (cp 0x1fec, cp 0x1fe5), (cp 0x1ff8, cp 0x1f78), (cp 0x1ff9, cp 0x1f79), (cp 0x1ffa, cp 0x1f7c), (cp 0x1ffb, cp 0x1f7d), (cp 0x1ffc, cp 0x1ff3),
  (cp 0x2126, cp 0x3c9), (cp 0x212a, cp 0x6b), (cp 0x212b, cp 0xe5), (cp 0x2132, cp 0x214e), (cp 0x2160, cp 0x2170), (cp 0x2161, cp 0x2171)]

/-- Slice of the simple lowercase mapping table. -/
def lowerTabH : List (Char × Char) := [
  (cp 0x2162, cp 0x2172), (cp 0x2163, cp 0x2173), (cp 0x2164, cp 0x2174), (cp 0x2165, cp 0x2175), (cp 0x2166, cp 0x2176), (cp 0x2167, cp 0x2177),
  (cp 0x2168, cp 0x2178), (cp 0x2169, cp 0x2179), (cp 0x216a, cp 0x217a), (cp 0x216b, cp 0x217b), (cp 0x216c, cp 0x217c), (cp 0x216d, cp 0x217d),
  (cp 0x216e, cp 0x217e), (cp 0x216f, cp 0x217f), (cp 0x2183, cp 0x2184), (cp 0x24b6, cp 0x24d0), (cp 0x24b7, cp 0x24d1), (cp 0x24b8, cp 0x24d2),
  (cp 0x24b9, cp 0x24d3), (cp 0x24ba, cp 0x24d4), (cp 0x24bb, cp 0x24d5), (cp 0x24bc, cp 0x24d6), (cp 0x24bd, cp 0x24d7), (cp 0x24be, cp 0x24d8),
  (cp 0x24bf, cp 0x24d9), (cp 0x24c0, cp 0x24da), (cp 0x24c1, cp 0x24db), (cp 0x24c2, cp 0x24dc), (cp 0x24c3, cp 0x24dd), (cp 0x24c4, cp 0x24de),
  (cp 0x24c5, cp 0x24df), (cp 0x24c6, cp 0x24e0), (cp 0x24c7, cp 0x24e1), (cp 0x24c8, cp 0x24e2), (cp 0x24c9, cp 0x24e3), (cp 0x24ca, cp 0x24e4),
  (cp 0x24cb, cp 0x24e5), (cp 0x24cc, cp 0x24e6), (cp 0x24cd, cp 0x24e7), (cp 0x24ce, cp 0x24e8), (cp 0x24cf, cp 0x24e9), (cp 0x2c00, cp 0x2c30),
  (cp 0x2c01, cp 0x2c31), (cp 0x2c02, cp 0x2c32), (cp 0x2c03, cp 0x2c33), (cp 0x2c04, cp 0x2c34), (cp 0x2c05, cp 0x2c35), (cp 0x2c06, cp 0x2c36),
  (cp 0x2c07, cp 0x2c37), (cp 0x2c08, cp 0x2c38), (cp 0x2c09, cp 0x2c39), (cp 0x2c0a, cp 0x2c3a), (cp 0x2c0b, cp 0x2c3b), (cp 0x2c0c, cp 0x2c3c),
  (cp 0x2c0d, cp 0x2c3d), (cp 0x2c0e, cp 0x2c3e), (cp 0x2c0f, cp 0x2c3f), (cp 0x2c10, cp 0x2c40), (cp 0x2c11, cp 0x2c41), (cp 0x2c12, cp 0x2c42),
  (cp 0x2c13, cp 0x2c43), (cp 0x2c14, cp 0x2c44), (cp 0x2c15, cp 0x2c45), (cp 0x2c16, cp 0x2c46), (cp 0x2c17, cp 0x2c47), (cp 0x2c18, cp 0x2c48),
  (cp 0x2c19, cp 0x2c49), (cp 0x2c1a, cp 0x2c4a), (cp 0x2c1b, cp 0x2c4b), (cp 0x2c1c, cp 0x2c4c), (cp 0x2c1d, cp 0x2c4d), (cp 0x2c1e, cp 0x2c4e),
  (cp 0x2c1f, cp 0x2c4f), (cp 0x2c20, cp 0x2c50), (cp 0x2c21, cp 0x2c51), (cp 0x2c22, cp 0x2c52), (cp 0x2c23, cp 0x2c53), (cp 0x2c24, cp 0x2c54),
  (cp 0x2c25, cp 0x2c55), (cp 0x2c26, cp 0x2c56), (cp 0x2c27, cp 0x2c57), (cp 0x2c28, cp 0x2c58), (cp 0x2c29, cp 0x2c59), (cp 0x2c2a, cp 0x2c5a),
  (cp 0x2c2b, cp 0x2c5b), (cp 0x2c2c, cp 0x2c5c), (cp 0x2c2d, cp 0x2c5d), (cp 0x2c2e, cp 0x2c5e), (cp 0x2c2f, cp 0x2c5f), (cp 0x2c60, cp 0x2c61),
  (cp 0x2c62, cp 0x26b), (cp 0x2c63, cp 0x1d7d), (cp 0x2c64, cp 0x27d), (cp 0x2c67, cp 0x2c68), (cp 0x2c69, cp 0x2c6a), (cp 0x2c6b, cp 0x2c6c),
  (cp 0x2c6d, cp 0x251), (cp 0x2c6e, cp 0x271), (cp 0x2c6f, cp 0x250), (cp 0x2c70, cp 0x252), (cp 0x2c72, cp 0x2c73), (cp 0x2c75, cp 0x2c76),
  (cp 0x2c7e, cp 0x23f), (cp 0x2c7f, cp 0x240), (cp 0x2c80, cp 0x2c81), (cp 0x2c82, cp 0x2c83), (cp 0x2c84, cp 0x2c85), (cp 0x2c86, cp 0x2c87),
  (cp 0x2c88, cp 0x2c89), (cp 0x2c8a, cp 0x2c8b), (cp 0x2c8c, cp 0x2c8d), (cp 0x2c8e, cp 0x2c8f), (cp 0x2c90, cp 0x2c91), (cp 0x2c92, cp 0x2c93),
  (cp 0x2c94, cp 0x2c95), (cp 0x2c96, cp 0x2c97), (cp 0x2c98, cp 0x2c99), (cp 0x2c9a, cp 0x2c9b), (cp 0x2c9c, cp 0x2c9d), (cp 0x2c9e, cp 0x2c9f)]

/-- Slice of the simple lowercase mapping table. -/
def lowerTabI : List (Char × Char) := [
  (cp 0x2ca0, cp 0x2ca1), (cp 0x2ca2, cp 0x2ca3), (cp 0x2ca4, cp 0x2ca5), (cp 0x2ca6, cp 0x2ca7), (cp 0x2ca8, cp 0x2ca9), (cp 0x2caa, cp 0x2cab),
  (cp 0x2cac, cp 0x2cad), (cp 0x2cae, cp 0x2caf), (cp 0x2cb0, cp 0x2cb1), (cp 0x2cb2, cp 0x2cb3), (cp 0x2cb4, cp 0x2cb5), (cp 0x2cb6, cp 0x2cb7),
  (cp 0x2cb8, cp 0x2cb9), (cp 0x2cba, cp 0x2cbb), (cp 0x2cbc, cp 0x2cbd), (cp 0x2cbe, cp 0x2cbf), (cp 0x2cc0, cp 0x2cc1), (cp 0x2cc2, cp 0x2cc3),
  (cp 0x2cc4, cp 0x2cc5), (cp 0x2cc6, cp 0x2cc7), (cp 0x2cc8, cp 0x2cc9), (cp 0x2cca, cp 0x2ccb), (cp 0x2ccc, cp 0x2ccd), (cp 0x2cce, cp 0x2ccf),
  (cp 0x2cd0, cp 0x2cd1), (cp 0x2cd2, cp 0x2cd3), (cp 0x2cd4, cp 0x2cd5), (cp 0x2cd6, cp 0x2cd7), (cp 0x2cd8, cp 0x2cd9), (cp 0x2cda, cp 0x2cdb),
  (cp 0x2cdc, cp 0x2cdd), (cp 0x2cde, cp 0x2cdf), (cp 0x2ce0, cp 0x2ce1), (cp 0x2ce2, cp 0x2ce3), (cp 0x2ceb, cp 0x2cec), (cp 0x2ced, cp 0x2cee),
  (cp 0x2cf2, cp 0x2cf3), (cp 0xa640, cp 0xa641), (cp 0xa642, cp 0xa643), (cp 0xa644, cp 0xa645), (cp 0xa646, cp 0xa647), (cp 0xa648, cp 0xa649),
  (cp 0xa64a, cp 0xa64b), (cp 0xa64c, cp 0xa64d), (cp 0xa64e, cp 0xa64f), (cp 0xa650, cp 0xa651), (cp 0xa652, cp 0xa653), (cp 0xa654, cp 0xa655),
  (cp 0xa656, cp 0xa657), (cp 0xa658, cp 0xa659), (cp 0xa65a, cp 0xa65b), (cp 0xa65c, cp 0xa65d), (cp 0xa65e, cp 0xa65f), (cp 0xa660, cp 0xa661),
  (cp 0xa662, cp 0xa663), (cp 0xa664, cp 0xa665), (cp 0xa666, cp 0xa667), (cp 0xa668, cp 0xa669), (cp 0xa66a, cp 0xa66b), (cp 0xa66c, cp 0xa66d),
  (cp 0xa680, cp 0xa681), (cp 0xa682, cp 0xa683), (cp 0xa684, cp 0xa685), (cp 0xa686, cp 0xa687), (cp 0xa688, cp 0xa689), (cp 0xa68a, cp 0xa68b),
  (cp 0xa68c, cp 0xa68d), (cp 0xa68e, cp 0xa68f), (cp 0xa690, cp 0xa691), (cp 0xa692, cp 0xa693), (cp 0xa694, cp 0xa695), (cp 0xa696, cp 0xa697),
  (cp 0xa698, cp 0xa699), (cp 0xa69a, cp 0xa69b), (cp 0xa722, cp 0xa723), (cp 0xa724, cp 0xa725), (cp 0xa726, cp 0xa727), (cp 0xa728, cp 0xa729),
  (cp 0xa72a, cp 0xa72b), (cp 0xa72c, cp 0xa72d), (cp 0xa72e, cp 0xa72f), (cp 0xa732, cp 0xa733), (cp 0xa734, cp 0xa735), (cp 0xa736, cp 0xa737),
  (cp 0xa738, cp 0xa739), (cp 0xa73a, cp 0xa73b), (cp 0xa73c, cp 0xa73d), (cp 0xa73e, cp 0xa73f), (cp 0xa740, cp 0xa741), (cp 0xa742, cp 0xa743),
  (cp 0xa744, cp 0xa745), (cp 0xa746, cp 0xa747), (cp 0xa748, cp 0xa749), (cp 0xa74a, cp 0xa74b), (cp 0xa74c, cp 0xa74d), (cp 0xa74e, cp 0xa74f),
  (cp 0xa750, cp 0xa751), (cp 0xa752, cp 0xa753), (cp 0xa754, cp 0xa755), (cp 0xa756, cp 0xa757), (cp 0xa758, cp 0xa759), (cp 0xa75a, cp 0xa75b),
  (cp 0xa75c, cp 0xa75d), (cp 0xa75e, cp 0xa75f), (cp 0xa760, cp 0xa761), (cp 0xa762, cp 0xa763), (cp 0xa764, cp 0xa765), (cp 0xa766, cp 0xa767),
  (cp 0xa768, cp 0xa769), (cp 0xa76a, cp 0xa76b), (cp 0xa76c, cp 0xa76d), (cp 0xa76e, cp 0xa76f), (cp 0xa779, cp 0xa77a), (cp 0xa77b, cp 0xa77c),
  (cp 0xa77d, cp 0x1d79), (cp 0xa77e, cp 0xa77f), (cp 0xa780, cp 0xa781), (cp 0xa782, cp 0xa783), (cp 0xa784, cp 0xa785), (cp 0xa786, cp 0xa787)]

/-- Slice of the simple lowercase mapping table. -/
def lowerTabJ : List (Char × Char) := [
  (cp 0xa78b, cp 0xa78c), (cp 0xa78d, cp 0x265), (cp 0xa790, cp 0xa791), (cp 0xa792, cp 0xa793), (cp 0xa796, cp 0xa797), (cp 0xa798, cp 0xa799),
  (cp 0xa79a, cp 0xa79b), (cp 0xa79c, cp 0xa79d), (cp 0xa79e, cp 0xa79f), (cp 0xa7a0, cp 0xa7a1), (cp 0xa7a2, cp 0xa7a3), (cp 0xa7a4, cp 0xa7a5),
  (cp 0xa7a6, cp 0xa7a7), (cp 0xa7a8, cp 0xa7a9), (cp 0xa7aa, cp 0x266), (cp 0xa7ab, cp 0x25c), (cp 0xa7ac, cp 0x261), (cp 0xa7ad, cp 0x26c),
  (cp 0xa7ae, cp 0x26a), (cp 0xa7b0, cp 0x29e), (cp 0xa7b1, cp 0x287), (cp 0xa7b2, cp 0x29d), (cp 0xa7b3, cp 0xab53), (cp 0xa7b4, cp 0xa7b5),
  (cp 0xa7b6, cp 0xa7b7), (cp 0xa7b8, cp 0xa7b9), (cp 0xa7ba, cp 0xa7bb), (cp 0xa7bc, cp 0xa7bd), (cp 0xa7be, cp 0xa7bf), (cp 0xa7c0, cp 0xa7c1),
  (cp 0xa7c2, cp 0xa7c3), (cp 0xa7c4, cp 0xa794), (cp 0xa7c5, cp 0x282), (cp 0xa7c6, cp 0x1d8e), (cp 0xa7c7, cp 0xa7c8), (cp 0xa7c9, cp 0xa7ca),
  (cp 0xa7d0, cp 0xa7d1), (cp 0xa7d6, cp 0xa7d7), (cp 0xa7d8, cp 0xa7d9), (cp 0xa7f5, cp 0xa7f6), (cp 0xff21, cp 0xff41), (cp 0xff22, cp 0xff42),
  (cp 0xff23, cp 0xff43), (cp 0xff24, cp 0xff44), (cp 0xff25, cp 0xff45), (cp 0xff26, cp 0xff46), (cp 0xff27, cp 0xff47), (cp 0xff28, cp 0xff48),
  (cp 0xff29, cp 0xff49), (cp 0xff2a, cp 0xff4a), (cp 0xff2b, cp 0xff4b), (cp 0xff2c, cp 0xff4c), (cp 0xff2d, cp 0xff4d), (cp 0xff2e, cp 0xff4e),
  (cp 0xff2f, cp 0xff4f), (cp 0xff30, cp 0xff50), (cp 0xff31, cp 0xff51), (cp 0xff32, cp 0xff52), (cp 0xff33, cp 0xff53), (cp 0xff34, cp 0xff54),
  (cp 0xff35, cp 0xff55), (cp 0xff36, cp 0xff56), (cp 0xff37, cp 0xff57), (cp 0xff38, cp 0xff58), (cp 0xff39, cp 0xff59), (cp 0xff3a, cp 0xff5a),
  (cp 0x10400, cp 0x10428), (cp 0x10401, cp 0x10429), (cp 0x10402, cp 0x1042a), (cp 0x10403, cp 0x1042b), (cp 0x10404, cp 0x1042c), (cp 0x10405, cp 0x1042d),
  (cp 0x10406, cp 0x1042e), (cp 0x10407, cp 0x1042f), (cp 0x10408, cp 0x10430), (cp 0x10409, cp 0x10431), (cp 0x1040a, cp 0x10432), (cp 0x1040b, cp 0x10433),
  (cp 0x1040c, cp 0x10434), (cp 0x1040d, cp 0x10435), (cp 0x1040e, cp 0x10436), (cp 0x1040f, cp 0x10437), (cp 0x10410, cp 0x10438), (cp 0x10411, cp 0x10439),
  (cp 0x10412, cp 0x1043a), (cp 0x10413, cp 0x1043b), (cp 0x10414, cp 0x1043c), (cp 0x10415, cp 0x1043d), (cp 0x10416, cp 0x1043e), (cp 0x10417, cp 0x1043f),
  (cp 0x10418, cp 0x10440), (cp 0x10419, cp 0x10441), (cp 0x1041a, cp 0x10442), (cp 0x1041b, cp 0x10443), (cp 0x1041c, cp 0x10444), (cp 0x1041d, cp 0x10445),
  (cp 0x1041e, cp 0x10446), (cp 0x1041f, cp 0x10447), (cp 0x10420, cp 0x10448), (cp 0x10421, cp 0x10449), (cp 0x10422, cp 0x1044a), (cp 0x10423, cp 0x1044b),
  (cp 0x10424, cp 0x1044c), (cp 0x10425, cp 0x1044d), (cp 0x10426, cp 0x1044e), (cp 0x10427, cp 0x1044f), (cp 0x104b0, cp 0x104d8), (cp 0x104b1, cp 0x104d9),
  (cp 0x104b2, cp 0x104da), (cp 0x104b3, cp 0x104db), (cp 0x104b4, cp 0x104dc), (cp 0x104b5, cp 0x104dd), (cp 0x104b6, cp 0x104de), (cp 0x104b7, cp 0x104df),
  (cp 0x104b8, cp 0x104e0), (cp 0x104b9, cp 0x104e1), (cp 0x104ba, cp 0x104e2), (cp 0x104bb, cp 0x104e3), (cp 0x104bc, cp 0x104e4), (cp 0x104bd, cp 0x104e5)]

/-- Slice of the simple lowercase mapping table. -/
def lowerTabK : List (Char × Char) := [
  (cp 0x104be, cp 0x104e6), (cp 0x104bf, cp 0x104e7), (cp 0x104c0, cp 0x104e8), (cp 0x104c1, cp 0x104e9), (cp 0x104c2, cp 0x104ea), (cp 0x104c3, cp 0x104eb),
  (cp 0x104c4, cp 0x104ec), (cp 0x104c5, cp 0x104ed), (cp 0x104c6, cp 0x104ee), (cp 0x104c7, cp 0x104ef), (cp 0x104c8, cp 0x104f0), (cp 0x104c9, cp 0x104f1),
  (cp 0x104ca, cp 0x104f2), (cp 0x104cb, cp 0x104f3), (cp 0x104cc, cp 0x104f4), (cp 0x104cd, cp 0x104f5), (cp 0x104ce, cp 0x104f6), (cp 0x104cf, cp 0x104f7),
  (cp 0x104d0, cp 0x104f8), (cp 0x104d1, cp 0x104f9), (cp 0x104d2, cp 0x104fa), (cp 0x104d3, cp 0x104fb), (cp 0x10570, cp 0x10597), (cp 0x10571, cp 0x10598),
  (cp 0x10572, cp 0x10599), (cp 0x10573, cp 0x1059a), (cp 0x10574, cp 0x1059b), (cp 0x10575, cp 0x1059c), (cp 0x10576, cp 0x1059d), (cp 0x10577, cp 0x1059e),
  (cp 0x10578, cp 0x1059f), (cp 0x10579, cp 0x105a0), (cp 0x1057a, cp 0x105a1), (cp 0x1057c, cp 0x105a3), (cp 0x1057d, cp 0x105a4), (cp 0x1057e, cp 0x105a5),
  (cp 0x1057f, cp 0x105a6), (cp 0x10580, cp 0x105a7), (cp 0x10581, cp 0x105a8), (cp 0x10582, cp 0x105a9), (cp 0x10583, cp 0x105aa), (cp 0x10584, cp 0x105ab),
  (cp 0x10585, cp 0x105ac), (cp 0x10586, cp 0x105ad), (cp 0x10587, cp 0x105ae), (cp 0x10588, cp 0x105af), (cp 0x10589, cp 0x105b0), (cp 0x1058a, cp 0x105b1),
  (cp 0x1058c, cp 0x105b3), (cp 0x1058d, cp 0x105b4), (cp 0x1058e, cp 0x105b5), (cp 0x1058f, cp 0x105b6), (cp 0x10590, cp 0x105b7), (cp 0x10591, cp 0x105b8),
  (cp 0x10592, cp 0x105b9), (cp 0x10594, cp 0x105bb), (cp 0x10595, cp 0x105bc), (cp 0x10c80, cp 0x10cc0), (cp 0x10c81, cp 0x10cc1), (cp 0x10c82, cp 0x10cc2),
  (cp 0x10c83, cp 0x10cc3), (cp 0x10c84, cp 0x10cc4), (cp 0x10c85, cp 0x10cc5), (cp 0x10c86, cp 0x10cc6), (cp 0x10c87, cp 0x10cc7), (cp 0x10c88, cp 0x10cc8),
  (cp 0x10c89, cp 0x10cc9), (cp 0x10c8a, cp 0x10cca), (cp 0x10c8b, cp 0x10ccb), (cp 0x10c8c, cp 0x10ccc), (cp 0x10c8d, cp 0x10ccd), (cp 0x10c8e, cp 0x10cce),
  (cp 0x10c8f, cp 0x10ccf), (cp 0x10c90, cp 0x10cd0), (cp 0x10c91, cp 0x10cd1), (cp 0x10c92, cp 0x10cd2), (cp 0x10c93, cp 0x10cd3), (cp 0x10c94, cp 0x10cd4),
  (cp 0x10c95, cp 0x10cd5), (cp 0x10c96, cp 0x10cd6), (cp 0x10c97, cp 0x10cd7), (cp 0x10c98, cp 0x10cd8), (cp 0x10c99, cp 0x10cd9), (cp 0x10c9a, cp 0x10cda),
  (cp 0x10c9b, cp 0x10cdb), (cp 0x10c9c, cp 0x10cdc), (cp 0x10c9d, cp 0x10cdd), (cp 0x10c9e, cp 0x10cde), (cp 0x10c9f, cp 0x10cdf), (cp 0x10ca0, cp 0x10ce0),
  (cp 0x10ca1, cp 0x10ce1), (cp 0x10ca2, cp 0x10ce2), (cp 0x10ca3, cp 0x10ce3), (cp 0x10ca4, cp 0x10ce4), (cp 0x10ca5, cp 0x10ce5), (cp 0x10ca6, cp 0x10ce6),
  (cp 0x10ca7, cp 0x10ce7), (cp 0x10ca8, cp 0x10ce8), (cp 0x10ca9, cp 0x10ce9), (cp 0x10caa, cp 0x10cea), (cp 0x10cab, cp 0x10ceb), (cp 0x10cac, cp 0x10cec),
  (cp 0x10cad, cp 0x10ced), (cp 0x10cae, cp 0x10cee), (cp 0x10caf, cp 0x10cef), (cp 0x10cb0, cp 0x10cf0), (cp 0x10cb1, cp 0x10cf1), (cp 0x10cb2, cp 0x10cf2),
  (cp 0x118a0, cp 0x118c0), (cp 0x118a1, cp 0x118c1), (cp 0x118a2, cp 0x118c2), (cp 0x118a3, cp 0x118c3), (cp 0x118a4, cp 0x118c4), (cp 0x118a5, cp 0x118c5),
  (cp 0x118a6, cp 0x118c6), (cp 0x118a7, cp 0x118c7), (cp 0x118a8, cp 0x118c8), (cp 0x118a9, cp 0x118c9), (cp 0x118aa, cp 0x118ca), (cp 0x118ab, cp 0x118cb)]

/-- Slice of the simple lowercase mapping table. -/
def lowerTabL : List (Char × Char) := [
  (cp 0x118ac, cp 0x118cc), (cp 0x118ad, cp 0x118cd), (cp 0x118ae, cp 0x118ce), (cp 0x118af, cp 0x118cf), (cp 0x118b0, cp 0x118d0), (cp 0x118b1, cp 0x118d1),
  (cp 0x118b2, cp 0x118d2), (cp 0x118b3, cp 0x118d3), (cp 0x118b4, cp 0x118d4), (cp 0x118b5, cp 0x118d5), (cp 0x118b6, cp 0x118d6), (cp 0x118b7, cp 0x118d7),
  (cp 0x118b8, cp 0x118d8), (cp 0x118b9, cp 0x118d9), (cp 0x118ba, cp 0x118da), (cp 0x118bb, cp 0x118db), (cp 0x118bc, cp 0x118dc), (cp 0x118bd, cp 0x118dd),
  (cp 0x118be, cp 0x118de), (cp 0x118bf, cp 0x118df), (cp 0x16e40, cp 0x16e60), (cp 0x16e41, cp 0x16e61), (cp 0x16e42, cp 0x16e62), (cp 0x16e43, cp 0x16e63),
  (cp 0x16e44, cp 0x16e64), (cp 0x16e45, cp 0x16e65), (cp 0x16e46, cp 0x16e66), (cp 0x16e47, cp 0x16e67), (cp 0x16e48, cp 0x16e68), (cp 0x16e49, cp 0x16e69),
  (cp 0x16e4a, cp 0x16e6a), (cp 0x16e4b, cp 0x16e6b), (cp 0x16e4c, cp 0x16e6c), (cp 0x16e4d, cp 0x16e6d), (cp 0x16e4e, cp 0x16e6e), (cp 0x16e4f, cp 0x16e6f),
  (cp 0x16e50, cp 0x16e70), (cp 0x16e51, cp 0x16e71), (cp 0x16e52, cp 0x16e72), (cp 0x16e53, cp 0x16e73), (cp 0x16e54, cp 0x16e74), (cp 0x16e55, cp 0x16e75),
  (cp 0x16e56, cp 0x16e76), (cp 0x16e57, cp 0x16e77), (cp 0x16e58, cp 0x16e78), (cp 0x16e59, cp 0x16e79), (cp 0x16e5a, cp 0x16e7a), (cp 0x16e5b, cp 0x16e7b),
  (cp 0x16e5c, cp 0x16e7c), (cp 0x16e5d, cp 0x16e7d), (cp 0x16e5e, cp 0x16e7e), (cp 0x16e5f, cp 0x16e7f), (cp 0x1e900, cp 0x1e922), (cp 0x1e901, cp 0x1e923),
  (cp 0x1e902, cp 0x1e924), (cp 0x1e903, cp 0x1e925), (cp 0x1e904, cp 0x1e926), (cp 0x1e905, cp 0x1e927), (cp 0x1e906, cp 0x1e928), (cp 0x1e907, cp 0x1e929),
  (cp 0x1e908, cp 0x1e92a), (cp 0x1e909, cp 0x1e92b), (cp 0x1e90a, cp 0x1e92c), (cp 0x1e90b, cp 0x1e92d), (cp 0x1e90c, cp 0x1e92e), (cp 0x1e90d, cp 0x1e92f),
  (cp 0x1e90e, cp 0x1e930), (cp 0x1e90f, cp 0x1e931), (cp 0x1e910, cp 0x1e932), (cp 0x1e911, cp 0x1e933), (cp 0x1e912, cp 0x1e934), (cp 0x1e913, cp 0x1e935),
  (cp 0x1e914, cp 0x1e936), (cp 0x1e915, cp 0x1e937), (cp 0x1e916, cp 0x1e938), (cp 0x1e917, cp 0x1e939), (cp 0x1e918, cp 0x1e93a), (cp 0x1e919, cp 0x1e93b),
  (cp 0x1e91a, cp 0x1e93c), (cp 0x1e91b, cp 0x1e93d), (cp 0x1e91c, cp 0x1e93e), (cp 0x1e91d, cp 0x1e93f), (cp 0x1e91e, cp 0x1e940), (cp 0x1e91f, cp 0x1e941),
  (cp 0x1e920, cp 0x1e942), (cp 0x1e921, cp 0x1e943)]

/-- The Unicode (14.0) simple lowercase mapping for code points `≥ 0x80`:
every code point whose `str.lower` image is a single, different character,
paired with that image (`UnicodeData.txt` field 13). -/
def lowerTable : List (Char × Char) :=
  lowerTabA ++ lowerTabB ++ lowerTabC ++ lowerTabD ++ lowerTabE ++ lowerTabF ++ lowerTabG ++ lowerTabH ++ lowerTabI ++ lowerTabJ ++ lowerTabK ++ lowerTabL

/-- First-match lookup in a mapping table; characters not in the table map
to themselves. -/
def lowerLook : List (Char × Char) → Char → Char
  | [], c => c
  | (k, v) :: t, c => if c = k then v else lowerLook t c

/-- Char-wise lower-casing: the Unicode simple lowercase mapping, as
applied by Python's `str.lower()` and the backend's `lower()`.  Both of
those additionally special-case `U+0130` and final `U+03A3` (see
`lowerExact`), which have no char-wise image and are excluded from claim
C1's scope. -/
def pyLowerChar (c : Char) : Char :=
  if c.toNat < 0x80 then lowerLook asciiLower c else lowerLook lowerTable c

/-- Python `str.lower()` / SQL `lower()`, character by character. -/
def pyLower (s : String) : String := ⟨s.data.map pyLowerChar⟩

/-- Helper for `splitComma`: accumulates the current piece (reversed). -/
def splitCommaAux (cur : List Char) : List Char → List (List Char)
  | [] => [cur.reverse]
  | c :: rest =>
    if c = ',' then cur.reverse :: splitCommaAux [] rest
    else splitCommaAux (c :: cur) rest

/-- Python `s.split(",")`. -/
def splitComma (s : String) : List String :=
  (splitCommaAux [] s.data).map (fun l => ⟨l⟩)

/-- Boolean prefix test on character lists (first argument is the prefix). -/
def lStartsWith : List Char → List Char → Bool
  | [], _ => true
  | _ :: _, [] => false
  | p :: ps, c :: cs => p = c && lStartsWith ps cs

/-- Python `str.startswith` on strings. -/
def pyStartsWith (s pre : String) : Bool := lStartsWith pre.data s.data

/-- Lexicographic code-point order on character lists: text `ORDER BY`
under binary collation. -/
def lexLe : List Char → List Char → Bool
  | [], _ => true
  | _ :: _, [] => false
  | a :: as, b :: bs => a.toNat < b.toNat || (a.toNat = b.toNat && lexLe as bs)

/-! ## JSON values

`json.loads` maps JSON values to Python objects; `JVal` mirrors the result:
`null`→`None`, booleans, integers, floats (kept as their lexeme, see the
header note), strings, lists and dicts. -/

inductive JVal where
  | null
  | bool (b : Bool)
  | num (n : Int)
  | numF (lit : String)
  | str (s : String)
  | arr (xs : List JVal)
  | obj (kvs : List (String × JVal))

/-- Does the value correspond to a Python `list`? -/
def JVal.isArr : JVal → Bool
  | .arr _ => true
  | _ => false

/-- Escape of one character inside Python `repr` of a string, with quote
character `q` (printable-ASCII-faithful; `\n`, `\r`, `\t`, backslash and the
quote are escaped as Python does). -/
def pyReprChar (q c : Char) : List Char :=
  if c = '\\' then ['\\', '\\']
  else if c = q then ['\\', q]
  else if c = '\n' then ['\\', 'n']
  else if c = '\r' then ['\\', 'r']
  else if c = '\t' then ['\\', 't']
  else [c]

/-- Python `repr` of a string: single quotes unless the string contains a
single quote and no double quote. -/
def pyReprStr (s : String) : String :=
  let q : Char := if s.data.contains '\'' && !(s.data.contains '"') then '"' else '\''
  ⟨q :: s.data.flatMap (pyReprChar q) ++ [q]⟩

mutual

/-- Python `repr` of a parsed JSON value (used by `str` on lists/dicts). -/
def pyRepr : JVal → String
  | .null => "None"
  | .bool b => if b then "True" else "False"
  | .num n => toString n
  | .numF lit => lit
  | .str s => pyReprStr s
  | .arr xs => "[" ++ String.intercalate ", " (pyReprList xs) ++ "]"
  | .obj kvs => "\x7b" ++ String.intercalate ", " (pyReprKVs kvs) ++ "\x7d"

/-- `pyRepr` mapped over a list of values. -/
def pyReprList : List JVal → List String
  | [] => []
  | v :: vs => pyRepr v :: pyReprList vs

/-- `repr(key): repr(value)` entries of a dict. -/
def pyReprKVs : List (String × JVal) → List String
  | [] => []
  | (k, v) :: kvs => (pyReprStr k ++ ": " ++ pyRepr v) :: pyReprKVs kvs

end

/-- Python `str()` of a parsed JSON value. -/
def pyStr : JVal → String
  | .str s => s
  | v => pyRepr v

/-- Characters on which `pyReprChar` is exact: `repr` keeps printable
characters and escapes `\t`, `\n`, `\r`, `\\` and the quote, all of which
the model does; other (non-printable) characters, which `repr` renders as
`\xNN`-style escapes, are left out. -/
def reprChOk (c : Char) : Bool :=
  (0x20 ≤ c.toNat && c.toNat ≤ 0x7e) || c = '\t' || c = '\n' || c = '\r'

mutual

/-- Is Python `repr` of this parsed value rendered exactly by `pyRepr`?
Floats are excluded (their `repr` is the shortest round-tripping decimal,
kept as the lexeme here), strings are restricted to `reprChOk` characters,
and dicts additionally to unique keys (`json.loads` collapses duplicate
keys into one entry, the model keeps both). -/
def reprExact : JVal → Bool
  | .null => true
  | .bool _ => true
  | .num _ => true
  | .numF _ => false
  | .str s => s.data.all reprChOk
  | .arr xs => reprExactList xs
  | .obj kvs => decide ((kvs.map Prod.fst).Nodup) && reprExactKVs kvs

/-- `reprExact` over the elements of a list. -/
def reprExactList : List JVal → Bool
  | [] => true
  | v :: vs => reprExact v && reprExactList vs

/-- `reprExact` over the entries of a dict (keys are `repr`-ed too). -/
def reprExactKVs : List (String × JVal) → Bool
  | [] => true
  | (k, v) :: kvs => k.data.all reprChOk && reprExact v && reprExactKVs kvs

end

/-- Lower-case hex digit for `n < 16`. -/
def hexDig (n : Nat) : Char :=
  if n < 10 then Char.ofNat (48 + n) else Char.ofNat (87 + n)

/-- Four-digit lower-case hex rendering of `n < 0x10000`. -/
def hex4 (n : Nat) : List Char :=
  [hexDig (n / 4096 % 16), hexDig (n / 256 % 16), hexDig (n / 16 % 16), hexDig (n % 16)]

/-- `json.dumps` escaping of a single character (`ensure_ascii=True`):
`"`, `\`, the five short escapes, `\uXXXX` for other control or non-ASCII
characters, with a surrogate pair beyond the BMP. -/
def dumpsChar (c : Char) : List Char :=
  if c = '"' then ['\\', '"']
  else if c = '\\' then ['\\', '\\']
  else if c = '\n' then ['\\', 'n']
  else if c = '\r' then ['\\', 'r']
  else if c = '\t' then ['\\', 't']
  else if c = '\x08' then ['\\', 'b']
  else if c = '\x0c' then ['\\', 'f']
  else if c.toNat < 0x20 || 0x7e < c.toNat then
    if c.toNat < 0x10000 then '\\' :: 'u' :: hex4 c.toNat
    else
      ('\\' :: 'u' :: hex4 (0xD800 + (c.toNat - 0x10000) / 1024)) ++
      ('\\' :: 'u' :: hex4 (0xDC00 + (c.toNat - 0x10000) % 1024))
  else [c]

/-- `json.dumps` of one string, quotes included. -/
def dumpsStr (s : String) : List Char :=
  '"' :: s.data.flatMap dumpsChar ++ ['"']

/-- Comma-space separated dumps of the list elements (Python's default
`", "` item separator). -/
def dumpsBody : List String → List Char
  | [] => []
  | [s] => dumpsStr s
  | s :: rest => dumpsStr s ++ ',' :: ' ' :: dumpsBody rest

/-- `json.dumps` of a list of strings. -/
def jsonDumpsList (xs : List String) : String :=
  ⟨'[' :: dumpsBody xs ++ [']']⟩

/-! ## `json.loads` -/

/-- Whitespace skipped by the `json` scanner (` \t\n\r`). -/
def isJsonWs (c : Char) : Bool :=
  c = ' ' || c = '\t' || c = '\n' || c = '\r'

/-- Drop leading JSON whitespace. -/
def skipWs : List Char → List Char
  | [] => []
  | c :: cs => if isJsonWs c then skipWs cs else c :: cs

/-- Numeric value of one hex digit (either case). -/
def hexVal (c : Char) : Option Nat :=
  if '0' ≤ c ∧ c ≤ '9' then some (c.toNat - 48)
  else if 'a' ≤ c ∧ c ≤ 'f' then some (c.toNat - 87)
  else if 'A' ≤ c ∧ c ≤ 'F' then some (c.toNat - 55)
  else none

/-- Value of four hex digits. -/
def hex4val (a b c d : Char) : Option Nat :=
  match hexVal a, hexVal b, hexVal c, hexVal d with
  | some x, some y, some z, some w => some (x * 4096 + y * 256 + z * 16 + w)
  | _, _, _, _ => none

/-- Prepend a decoded character to the result of a string-body parse. -/
def consCont (ch : Char) (res : Option (List Char × List Char)) :
    Option (List Char × List Char) :=
  res.map (fun p => (ch :: p.1, p.2))

/-- Decode a `\uXXXX` escape (the input starts after the `u`): a basic-plane
scalar stands alone, a high surrogate must be followed by a low surrogate
escape and the pair is combined (see the header note on lone surrogates). -/
def parseUEsc : List Char → Option (Char × List Char)
  | a :: b :: c :: d :: r3 =>
    match hex4val a b c d with
    | none => none
    | some n =>
      if n < 0xD800 ∨ 0xDFFF < n then some (Char.ofNat n, r3)
      else if n < 0xDC00 then
        match r3 with
        | e2 :: u2 :: a2 :: b2 :: c3 :: d2 :: r4 =>
          if e2 = '\\' ∧ u2 = 'u' then
            match hex4val a2 b2 c3 d2 with
            | some m =>
              if 0xDC00 ≤ m ∧ m ≤ 0xDFFF then
                some (Char.ofNat (0x10000 + (n - 0xD800) * 1024 + (m - 0xDC00)), r4)
              else none
            | none => none
          else none
        | _ => none
      else none
  | _ => none

/-- Decode one escape sequence (the input starts after the backslash). -/
def parseEsc : List Char → Option (Char × List Char)
  | [] => none
  | e :: r2 =>
    if e = '"' then some ('"', r2)
    else if e = '\\' then some ('\\', r2)
    else if e = '/' then some ('/', r2)
    else if e = 'b' then some ('\x08', r2)
    else if e = 'f' then some ('\x0c', r2)
    else if e = 'n' then some ('\n', r2)
    else if e = 'r' then some ('\r', r2)
    else if e = 't' then some ('\t', r2)
    else if e = 'u' then parseUEsc r2
    else none

/-- Fueled worker for the body of a JSON string (after the opening quote),
strict mode: raw control characters are rejected, escapes are decoded.
Each step consumes at least one character, so fuel bounded below by the
input length never runs out. -/
def parseStrLoopF : Nat → List Char → Option (List Char × List Char)
  | 0, _ => none
  | _ + 1, [] => none
  | fuel + 1, c :: rest =>
    if c = '"' then some ([], rest)
    else if c = '\\' then
      match parseEsc rest with
      | some (ch, r2) => consCont ch (parseStrLoopF fuel r2)
      | none => none
    else if c.toNat < 0x20 then none
    else consCont c (parseStrLoopF fuel rest)

/-- Parser for the body of a JSON string: returns the decoded characters
and the input remaining after the closing quote. -/
def parseStrLoop (cs : List Char) : Option (List Char × List Char) :=
  parseStrLoopF (cs.length + 1) cs

/-- Integer value of a digit list (most significant first). -/
def natOfDigits (l : List Char) : Nat :=
  l.foldl (fun a c => a * 10 + (c.toNat - 48)) 0

/-- Parser for a JSON number, mirroring the `json` module's regex
`(-?(?:0|[1-9]\d*))(\.\d+)?([eE][-+]?\d+)?` plus the `Infinity` extension:
an integer literal becomes `JVal.num`, anything with a fraction or exponent
becomes `JVal.numF` carrying its lexeme. -/
def parseNum (cs : List Char) : Option (JVal × List Char) :=
  let (neg, cs1) :=
    match cs with
    | c :: r => if c = '-' then (true, r) else (false, cs)
    | [] => (false, cs)
  match cs1 with
  | 'I' :: 'n' :: 'f' :: 'i' :: 'n' :: 'i' :: 't' :: 'y' :: r2 =>
    some (.numF (if neg then "-inf" else "inf"), r2)
  | _ =>
    let (ipart, r1) :=
      match cs1 with
      | c :: r =>
        if c = '0' then ([c], r)
        else (cs1.takeWhile Char.isDigit, cs1.dropWhile Char.isDigit)
      | [] => ([], cs1)
    if hip : ipart = [] then none
    else if !(ipart.head hip).isDigit then none
    else
      let (fpart, r2) :=
        match r1 with
        | c :: r =>
          if c = '.' ∧ (r.takeWhile Char.isDigit) ≠ [] then
            ('.' :: r.takeWhile Char.isDigit, r.dropWhile Char.isDigit)
          else ([], r1)
        | [] => ([], r1)
      let (epart, r3) :=
        match r2 with
        | c :: r =>
          if c = 'e' ∨ c = 'E' then
            match r with
            | s :: rr =>
              if s = '+' ∨ s = '-' then
                if (rr.takeWhile Char.isDigit) ≠ [] then
                  (c :: s :: rr.takeWhile Char.isDigit, rr.dropWhile Char.isDigit)
                else ([], r2)
              else if (r.takeWhile Char.isDigit) ≠ [] then
                (c :: r.takeWhile Char.isDigit, r.dropWhile Char.isDigit)
              else ([], r2)
            | [] => ([], r2)
          else ([], r2)
        | [] => ([], r2)
      if fpart = [] ∧ epart = [] then
        some (.num (if neg then -(natOfDigits ipart : Int) else (natOfDigits ipart : Int)), r1)
      else
        some (.numF ⟨(if neg then ['-'] else []) ++ ipart ++ fpart ++ epart⟩, r3)

/-- Match an expected literal keyword and produce the given value. -/
def expectLit (kw : List Char) (v : JVal) (cs : List Char) : Option (JVal × List Char) :=
  if lStartsWith kw cs then some (v, cs.drop kw.length) else none

mutual

/-- Fueled recursive-descent parser for one JSON value (leading whitespace
skipped).  Fuel only bounds the recursion depth; `json_loads` supplies more
than enough. -/
def parseValue : Nat → List Char → Option (JVal × List Char)
  | 0, _ => none
  | fuel + 1, cs =>
    match skipWs cs with
    | [] => none
    | c :: r =>
      if c = '"' then (parseStrLoop r).map (fun p => (JVal.str ⟨p.1⟩, p.2))
      else if c = '[' then parseArrBody fuel r
      else if c = '\x7b' then parseObjBody fuel r
      else if c = 'n' then expectLit ['u', 'l', 'l'] JVal.null r
      else if c = 't' then expectLit ['r', 'u', 'e'] (JVal.bool true) r
      else if c = 'f' then expectLit ['a', 'l', 's', 'e'] (JVal.bool false) r
      else if c = 'N' then expectLit ['a', 'N'] (JVal.numF "nan") r
      else if c = 'I' then expectLit ['n', 'f', 'i', 'n', 'i', 't', 'y'] (JVal.numF "inf") r
      else parseNum (c :: r)

/-- Parser for an array body (the input starts after the `[`). -/
def parseArrBody : Nat → List Char → Option (JVal × List Char)
  | 0, _ => none
  | fuel + 1, r =>
    match skipWs r with
    | [] => none
    | c2 :: r2 => if c2 = ']' then some (JVal.arr [], r2) else parseItems fuel (c2 :: r2) []

/-- Parser for an object body (the input starts after the opening brace). -/
def parseObjBody : Nat → List Char → Option (JVal × List Char)
  | 0, _ => none
  | fuel + 1, r =>
    match skipWs r with
    | [] => none
    | c2 :: r2 => if c2 = '\x7d' then some (JVal.obj [], r2) else parseMembers fuel (c2 :: r2) []

/-- Parser for the items of a non-empty JSON array, accumulator style. -/
def parseItems : Nat → List Char → List JVal → Option (JVal × List Char)
  | 0, _, _ => none
  | fuel + 1, cs, acc =>
    match parseValue fuel cs with
    | none => none
    | some (v, r) =>
      match skipWs r with
      | [] => none
      | c :: r2 =>
        if c = ',' then parseItems fuel r2 (acc ++ [v])
        else if c = ']' then some (JVal.arr (acc ++ [v]), r2)
        else none

/-- Parser for the members of a non-empty JSON object. -/
def parseMembers : Nat → List Char → List (String × JVal) → Option (JVal × List Char)
  | 0, _, _ => none
  | fuel + 1, cs, acc =>
    match cs with
    | [] => none
    | c :: r =>
      if c = '"' then
        match parseStrLoop r with
        | none => none
        | some (k, r1) =>
          match skipWs r1 with
          | ':' :: r2 =>
            match parseValue fuel r2 with
            | none => none
            | some (v, r3) =>
              match skipWs r3 with
              | [] => none
              | c2 :: r4 =>
                if c2 = ',' then
                  match skipWs r4 with
                  | [] => none
                  | c3 :: r5 => parseMembers fuel (c3 :: r5) (acc ++ [(⟨k⟩, v)])
                else if c2 = '\x7d' then some (JVal.obj (acc ++ [(⟨k⟩, v)]), r4)
                else none
          | _ => none
      else none

end

/-- Python `json.loads`: parse one value, then require only whitespace to
remain. -/
def json_loads (s : String) : Option JVal :=
  match parseValue (s.data.length + 2) s.data with
  | some (v, rest) => if skipWs rest = [] then some v else none
  | none => none

/-! ## The tag codec: `_parse_tags` (`app.py` lines 95-106) -/

/-- Embedding of `_parse_tags`: empty or missing raw value gives `[]`; a
value that `json.loads` turns into a list gives the elements stringified,
stripped, with empty results dropped; anything else falls back to a comma
split with the same strip-and-drop. -/
def parse_tags (src : Option String) : List String :=
  match src with
  | none => []
  | some s =>
    if s = "" then []
    else
      match json_loads s with
      | some (JVal.arr xs) => (xs.map (fun v => pyStrip (pyStr v))).filter (fun t => t ≠ "")
      | _ => ((splitComma s).map pyStrip).filter (fun t => t ≠ "")

/-! ## SQL `LIKE`

`search` builds the pattern `f"%{q.lower()}%"` and applies it with
`lower(field) LIKE pattern` to four columns.  On the default backend
(PostgreSQL) `LIKE` has the default escape character `\`: `\c` in the
pattern matches the literal character `c`, `_` matches any single
character and `%` matches any (possibly empty) sequence.  The pattern is
first tokenised (`likeToks`, resolving the escapes) and then matched
(`likeMatchT`). -/

/-- One token of a `LIKE` pattern after resolving the escape character. -/
inductive LikeTok where
  | pct
  | usc
  | lit (c : Char)
deriving DecidableEq

/-- Tokenise a `LIKE` pattern with the default escape character `\`
(PostgreSQL): `\c` is the literal character `c`, `%` and `_` are the
wildcards, anything else is literal.  A pattern ending in a bare `\` is an
error in PostgreSQL; it cannot arise from the `f"%{q.lower()}%"` patterns
built by `search` (the tokeniser only ever inspects suffixes of the
pattern, and the pattern's last character is `%`), and is tokenised as
nothing here. -/
def likeToks : List Char → List LikeTok
  | [] => []
  | ['\\'] => []
  | '\\' :: e :: ps => .lit e :: likeToks ps
  | '%' :: ps => .pct :: likeToks ps
  | '_' :: ps => .usc :: likeToks ps
  | c :: ps => .lit c :: likeToks ps

/-- Matcher for a tokenised pattern: a literal matches itself, `_` any one
character, `%` any (possibly empty) sequence. -/
def likeMatchT : List LikeTok → List Char → Bool
  | [], s => s.isEmpty
  | .pct :: ps, s => s.tails.any (fun t => likeMatchT ps t)
  | .usc :: ps, s =>
    match s with
    | [] => false
    | _ :: s2 => likeMatchT ps s2
  | .lit x :: ps, s =>
    match s with
    | [] => false
    | c :: s2 => (x = c) && likeMatchT ps s2

/-- SQL `LIKE` with the default escape character, over character lists. -/
def likeMatch (pat s : List Char) : Bool := likeMatchT (likeToks pat) s

/-- The `LIKE` pattern `f"%{q.lower()}%"` built by `search`. -/
def likePat (q : String) : List Char := '%' :: (pyLower q).data ++ ['%']

/-! ## Data model

Rows of the two tables and the request/response schemas.  An image payload
is a byte list; `created_at` is omitted (it is only written, never read by
the embedded endpoints). -/

/-- Row of the `items` table. -/
structure ItemModel where
  id : String
  name : String
  desc : Option String
  tags_json : Option String
  images_json : Option String
deriving DecidableEq

/-- Row of the `item_images` table. -/
structure ItemImage where
  id : Nat
  item_id : String
  filename : String
  content_type : String
  data : List Nat
deriving DecidableEq

/-- Request/response schema `ItemIn` (`desc` is `Optional[str]`, so an
explicit JSON `null` arrives as `none`). -/
structure ItemIn where
  id : String
  name : String
  desc : Option String
  tags : List String
  images : List String
deriving DecidableEq

/-- Request schema `ItemUpdate`: every field optional, defaulting to
`None`.  Pydantic maps both an absent field and an explicit `null` to
`None`, so this type is the full post-validation state of a patch. -/
structure ItemUpdate where
  name : Option String
  desc : Option String
  tags : Option (List String)
  images : Option (List String)
deriving DecidableEq

/-- Wire-level view of one `ItemUpdate` field: absent (`none`), explicit
`null` (`some none`), or a value. -/
def WireField (α : Type) : Type := Option (Option α)

/-- Wire-level patch body as the client sent it. -/
structure ItemUpdateWire where
  name : WireField String
  desc : WireField String
  tags : WireField (List String)
  images : WireField (List String)

/-- Pydantic validation of a patch body: an absent field takes the default
`None`, and an explicit `null` passes through as `None` — the two collapse. -/
def validateUpdate (w : ItemUpdateWire) : ItemUpdate :=
  { name := w.name.join, desc := w.desc.join, tags := w.tags.join, images := w.images.join }

/-- One multipart file of an upload request (`UploadFile`): FastAPI exposes
`filename` and `content_type` as optional strings and `read()` yields the
payload bytes. -/
structure UploadFile where
  filename : Option String
  content_type : Option String
  data : List Nat
deriving DecidableEq

/-- Element of the `list_images` response. -/
structure ImageInfo where
  id : Nat
  url : String
  filename : String
  content_type : String
deriving DecidableEq

/-- The relational store: both tables plus the `item_images` autoincrement
counter. -/
structure DB where
  items : List ItemModel
  images : List ItemImage
  nextImageId : Nat
deriving DecidableEq

/-- Well-formedness the schema guarantees: primary keys are unique and the
autoincrement counter is ahead of every existing image id. -/
def WF (db : DB) : Prop :=
  (db.items.map (fun r => r.id)).Nodup ∧
  (db.images.map (fun im => im.id)).Nodup ∧
  ∀ im ∈ db.images, im.id < db.nextImageId

instance (db : DB) : Decidable (WF db) := by unfold WF; infer_instance

/-- Result of a handler: success value, or an `HTTPException` with status
code and detail. -/
inductive HResult (α : Type) where
  | ok : α → HResult α
  | error : Nat → String → HResult α
deriving DecidableEq

/-- Is the result an error? -/
def HResult.isError {α : Type} : HResult α → Bool
  | .ok _ => false
  | .error _ _ => true

/-- Primary-key lookup `db.get(ItemModel, item_id)`. -/
def dbGet (db : DB) (item_id : String) : Option ItemModel :=
  db.items.find? (fun r => r.id = item_id)

/-- The constants `MAX_IMAGES` and `MAX_BYTES` of `app.py`. -/
def MAX_IMAGES : Nat := 15

/-- Per-image payload bound: 4 MiB. -/
def MAX_BYTES : Nat := 4 * 1024 * 1024

/-- Image URL `f"/media/{img_id}"`. -/
def mediaUrl (n : Nat) : String := "/media/" ++ toString n

/-- Rows of `item_images` ordered by `id` (the `order_by(ItemImage.id)` of
the queries). -/
def sortImagesById (l : List ItemImage) : List ItemImage :=
  l.insertionSort (fun a b => a.id ≤ b.id)

/-- Rows of `items` ordered by `id` (the `order_by(ItemModel.id)` of
`search`; text ordering under binary collation). -/
def sortItemsById (l : List ItemModel) : List ItemModel :=
  l.insertionSort (fun a b => lexLe a.id.data b.id.data = true)

/-! ## Handlers -/

/-- Embedding of `to_dict`: decode tags, coalesce `desc`, and attach the
item's image URLs ordered by image id. -/
def to_dict (db : DB) (m : ItemModel) : ItemIn :=
  { id := m.id
  , name := m.name
  , desc := some (m.desc.getD "")
  , tags := parse_tags m.tags_json
  , images := (sortImagesById (db.images.filter (fun im => im.item_id = m.id))).map
      (fun im => mediaUrl im.id) }

/-- Does the row match the non-empty query?  The four `LIKE` clauses of
`search`, joined by `|`: lower-cased `id`, `name`, `coalesce(desc, '')` and
the raw `coalesce(tags_json, '')`. -/
def rowMatches (q : String) (r : ItemModel) : Bool :=
  likeMatch (likePat q) (pyLower r.id).data
  || likeMatch (likePat q) (pyLower r.name).data
  || likeMatch (likePat q) (pyLower (r.desc.getD "")).data
  || likeMatch (likePat q) (pyLower (r.tags_json.getD "")).data

/-- The filtered set of `search`: everything when `q` is empty (`if q:`),
otherwise the rows matching the `LIKE` disjunction. -/
def searchFiltered (q : String) (rows : List ItemModel) : List ItemModel :=
  if q = "" then rows else rows.filter (rowMatches q)

/-- Embedding of the `search` handler.  `total` is counted on the full
filtered set; the page is the filtered set ordered by `id` with `OFFSET`
and `LIMIT` applied.  The surrounding framework passes `limit` and `offset`
through unchecked; the default PostgreSQL backend rejects a negative
`LIMIT` or `OFFSET`, which surfaces as a 500 response. -/
def search (q : String) (limit offset : Int) (db : DB) : HResult (Nat × List ItemIn) :=
  if limit < 0 ∨ offset < 0 then .error 500 "Internal Server Error"
  else
    let filtered := searchFiltered q db.items
    .ok (filtered.length,
      (((sortItemsById filtered).drop offset.toNat).take limit.toNat).map (to_dict db))

/-- The `items` row inserted by `create_item`: `desc or ""`, dumped tags and
the (truncated) dumped legacy image-URL list. -/
def newItemRow (item : ItemIn) : ItemModel :=
  { id := item.id
  , name := item.name
  , desc := some (item.desc.getD "")
  , tags_json := some (jsonDumpsList item.tags)
  , images_json := some (jsonDumpsList (item.images.take 15)) }

/-- Embedding of `create_item`: the `len(images) > 15` guard, then the
duplicate-id check, then the insert. -/
def create_item (item : ItemIn) (db : DB) : HResult Unit × DB :=
  if item.images.length > 15 then (.error 400 "Max 15 images", db)
  else if (dbGet db item.id).isSome then (.error 409 "ID already exists", db)
  else (.ok (), { db with items := db.items ++ [newItemRow item] })

/-- The row produced by applying a patch to an existing row: fields whose
patch entry `is not None` are overwritten, the rest keep their value. -/
def applyPatch (row : ItemModel) (patch : ItemUpdate) : ItemModel :=
  { id := row.id
  , name := match patch.name with | some n => n | none => row.name
  , desc := match patch.desc with | some d => some d | none => row.desc
  , tags_json := match patch.tags with | some t => some (jsonDumpsList t) | none => row.tags_json
  , images_json :=
      match patch.images with
      | some l => some (jsonDumpsList (l.take 15))
      | none => row.images_json }

/-- Embedding of `update_item`: 404 on a missing id; the `len > 15` guard
on a present image list aborts before commit (so the session's uncommitted
mutations are rolled back on close); otherwise the patched row is
committed. -/
def update_item (item_id : String) (patch : ItemUpdate) (db : DB) : HResult Unit × DB :=
  match dbGet db item_id with
  | none => (.error 404 "Not found", db)
  | some row =>
    if (match patch.images with | some l => decide (l.length > 15) | none => false) then
      (.error 400 "Max 15 images", db)
    else
      (.ok (),
        { db with items := db.items.map (fun r => if r.id = item_id then applyPatch row patch else r) })

/-- Embedding of `delete_item`: 404 on a missing id; otherwise the row is
deleted and the backend's `ON DELETE CASCADE` removes all of its image
rows. -/
def delete_item (item_id : String) (db : DB) : HResult Unit × DB :=
  match dbGet db item_id with
  | none => (.error 404 "Not found", db)
  | some _ =>
    (.ok (),
      { db with
          items := db.items.filter (fun r => r.id ≠ item_id)
        , images := db.images.filter (fun im => im.item_id ≠ item_id) })

/-- The stub row auto-created by `upload_images` for an unknown id:
`name or item_id`, empty description, dumped empty tag and image lists. -/
def stubItem (item_id : String) (name : Option String) : ItemModel :=
  { id := item_id
  , name := match name with | some n => if n = "" then item_id else n | none => item_id
  , desc := some ""
  , tags_json := some (jsonDumpsList [])
  , images_json := some (jsonDumpsList []) }

/-- The per-file loop of `upload_images`, returning the files that were
validated and staged.  In order, per file: stop (`break`) once
`cur + saved >= MAX_IMAGES`, silently dropping the rest of the batch;
reject a content type that does not start with `image/`; silently skip an
empty payload (`continue`); reject a payload over `MAX_BYTES`; otherwise
stage the file and count it. -/
def processFiles (cur saved : Nat) : List UploadFile → HResult (List UploadFile)
  | [] => .ok []
  | f :: fs =>
    if cur + saved ≥ MAX_IMAGES then .ok []
    else if !(pyStartsWith (f.content_type.getD "") "image/") then
      .error 400 "Only image/* files allowed"
    else if f.data = [] then processFiles cur saved fs
    else if f.data.length > MAX_BYTES then .error 400 "Image too large (max 4MB)"
    else
      match processFiles cur (saved + 1) fs with
      | .ok rest => .ok (f :: rest)
      | .error s d => .error s d

/-- The `ItemImage` row inserted for one staged file: `filename or "image"`
and `content_type or "application/octet-stream"`. -/
def mkImageRow (imgId : Nat) (item_id : String) (f : UploadFile) : ItemImage :=
  { id := imgId
  , item_id := item_id
  , filename := (match f.filename with | some n => if n = "" then "image" else n | none => "image")
  , content_type :=
      (match f.content_type with
       | some c => if c = "" then "application/octet-stream" else c
       | none => "application/octet-stream")
  , data := f.data }

/-- Insert the staged files as image rows, assigning consecutive
autoincrement ids. -/
def addImages (db : DB) (item_id : String) : List UploadFile → DB
  | [] => db
  | f :: rest =>
    addImages
      { db with
          images := db.images ++ [mkImageRow db.nextImageId item_id f]
        , nextImageId := db.nextImageId + 1 }
      item_id rest

/-- The rows `addImages` appends, with their assigned ids. -/
def imageRows (startId : Nat) (item_id : String) : List UploadFile → List ItemImage
  | [] => []
  | f :: rest => mkImageRow startId item_id f :: imageRows (startId + 1) item_id rest

/-- The image count of one item: the `db.query(ItemImage).filter(...).count()`
of `upload_images`. -/
def imgCount (db : DB) (item_id : String) : Nat :=
  (db.images.filter (fun im => im.item_id = item_id)).length

/-- Embedding of `upload_images`.  A missing item is auto-created as a stub
and **committed at once**; then the current image count is taken, a full
item is rejected, the batch is processed, an empty result is rejected
(`"No images uploaded"`), and otherwise the staged rows are committed.  An
error after the stub commit rolls back only the staged image rows: the stub
row survives. -/
def upload_images (item_id : String) (files : List UploadFile) (name : Option String)
    (db : DB) : HResult Nat × DB :=
  let db1 :=
    if (dbGet db item_id).isSome then db
    else { db with items := db.items ++ [stubItem item_id name] }
  let cur := imgCount db1 item_id
  if cur ≥ MAX_IMAGES then
    (.error 400 ("Already has " ++ toString cur ++ " images; max 15"), db1)
  else
    match processFiles cur 0 files with
    | .error s d => (.error s d, db1)
    | .ok staged =>
      if staged.length = 0 then (.error 400 "No images uploaded", db1)
      else (.ok staged.length, addImages db1 item_id staged)

/-- Embedding of `list_images`: the item's image rows ordered by id,
projected to id, URL, filename and content type. -/
def list_images (item_id : String) (db : DB) : List ImageInfo :=
  (sortImagesById (db.images.filter (fun im => im.item_id = item_id))).map
    (fun im => { id := im.id, url := mediaUrl im.id, filename := im.filename, content_type := im.content_type })

/-- Embedding of `serve_image`: 404 on a missing id, otherwise the payload
with `content_type or "application/octet-stream"`. -/
def serve_image (image_id : Nat) (db : DB) : HResult (List Nat × String) :=
  match db.images.find? (fun im => im.id = image_id) with
  | none => .error 404 "Not found"
  | some im =>
    .ok (im.data, if im.content_type = "" then "application/octet-stream" else im.content_type)

/-- Embedding of `delete_image`: 404 on a missing id, otherwise the row is
deleted. -/
def delete_image (image_id : Nat) (db : DB) : HResult Unit × DB :=
  match db.images.find? (fun im => im.id = image_id) with
  | none => (.error 404 "Not found", db)
  | some _ => (.ok (), { db with images := db.images.filter (fun im => im.id ≠ image_id) })

/-! ## Spec-side definitions

Two definitions written from the specification's words rather than from the
code, used to compare claimed behaviour with the embedded behaviour. -/

/-- Boolean infix (substring) test. -/
def isSubstr (needle hay : String) : Bool :=
  hay.data.tails.any (fun t => lStartsWith needle.data t)

/-- Modelled from the spec (claim C1's reading of matching): the lower-cased
query matched *as a substring* against the four fields. -/
def rowMatchesSubSpec (q : String) (r : ItemModel) : Bool :=
  isSubstr (pyLower q) (pyLower r.id)
  || isSubstr (pyLower q) (pyLower r.name)
  || isSubstr (pyLower q) (pyLower (r.desc.getD ""))
  || isSubstr (pyLower q) (pyLower (r.tags_json.getD ""))

/-- Modelled from the spec (claim C1): search with substring matching,
total counted on the full filtered set, page sorted by id with offset
dropped and at most limit kept. -/
def searchSubSpec (q : String) (limit offset : Int) (db : DB) : Nat × List ItemIn :=
  let filtered :=
    if q = "" then db.items else db.items.filter (rowMatchesSubSpec q)
  (filtered.length,
    (((sortItemsById filtered).drop offset.toNat).take limit.toNat).map (to_dict db))

/-- Modelled from the spec (claim C10): search where `limit` is clamped to
at least 1 and `offset` to at least 0 before truncating the page (the
filter itself as the code has it). -/
def searchClampSpec (q : String) (limit offset : Int) (db : DB) : Nat × List ItemIn :=
  let filtered := searchFiltered q db.items
  (filtered.length,
    (((sortItemsById filtered).drop (max offset 0).toNat).take (max limit 1).toNat).map (to_dict db))

/-- Queries taken literally by the `LIKE` pattern: no `%` or `_` wildcard
and no occurrence of the default escape character `\`. -/
def plainQuery (q : String) : Prop :=
  ∀ c ∈ q.data, ¬(c = '%' ∨ c = '_' ∨ c = '\\')

instance (q : String) : Decidable (plainQuery q) := by unfold plainQuery; infer_instance

/-- Strings on which the char-wise lower-casing model is exact: Python's
`str.lower()` and the backend's `lower()` follow the Unicode simple
lowercase mapping except on `U+0130` (`İ`, whose lower case is the two
characters `i̇`) and `U+03A3` (`Σ`, subject to the final-sigma context
rule); those two characters are excluded. -/
def lowerExact (s : String) : Prop :=
  ∀ c ∈ s.data, c.toNat ≠ 0x130 ∧ c.toNat ≠ 0x3a3

instance (s : String) : Decidable (lowerExact s) := by unfold lowerExact; infer_instance

/-- The committed state of `upload_images` before any image write: the stub
row is appended when the item was missing. -/
def uploadBase (item_id : String) (name : Option String) (db : DB) : DB :=
  if (dbGet db item_id).isSome then db
  else { db with items := db.items ++ [stubItem item_id name] }

/-! ## Concrete fixtures

Small concrete states used by the witness and counterexample theorems. -/

/-- The empty store. -/
def emptyDB : DB := { items := [], images := [], nextImageId := 1 }

/-- A fresh record request. -/
def sampleNewItem : ItemIn := { id := "a", name := "n", desc := none, tags := ["t"], images := [] }

/-- A duplicate-id create request carrying 16 legacy image URLs. -/
def sampleDupItem16 : ItemIn :=
  { id := "p1", name := "x", desc := none, tags := [], images := List.replicate 16 "u" }

/-- Wire patch that sets `name` to an explicit JSON `null`. -/
def sampleNullWire : ItemUpdateWire := { name := some none, desc := none, tags := none, images := none }

/-- Wire patch that omits every field. -/
def sampleAbsentWire : ItemUpdateWire := { name := none, desc := none, tags := none, images := none }

/-- A patch that only sets the description. -/
def samplePatch : ItemUpdate := { name := none, desc := some "newd", tags := none, images := none }

/-- One stored row with empty description and empty encoded tag list. -/
def sampleItemRow : ItemModel :=
  { id := "p1", name := "ab", desc := some "", tags_json := some "[]", images_json := some "[]" }

/-- Store holding just `sampleItemRow`. -/
def sampleDB : DB := { items := [sampleItemRow], images := [], nextImageId := 1 }

/-- A valid image upload file. -/
def sampleImageFile : UploadFile :=
  { filename := some "a.png", content_type := some "image/png", data := [1, 2] }

/-- An upload file with a non-image content type. -/
def sampleBadFile : UploadFile :=
  { filename := some "a.txt", content_type := some "text/plain", data := [1] }

/-- One stored image row owned by `"p1"`. -/
def sampleImage : ItemImage :=
  { id := 5, item_id := "p1", filename := "f", content_type := "image/png", data := [1] }

/-- Store holding `sampleItemRow` and its image `sampleImage`. -/
def sampleImgDB : DB := { items := [sampleItemRow], images := [sampleImage], nextImageId := 6 }

/-! ## Lemmas: the JSON round-trip -/

theorem hexVal_hexDig (n : Nat) (h : n < 16) : hexVal (hexDig n) = some n := by
  interval_cases n <;> rfl

theorem hex4val_hex4 (n : Nat) (h : n < 65536) :
    hex4val (hexDig (n / 4096 % 16)) (hexDig (n / 256 % 16)) (hexDig (n / 16 % 16))
      (hexDig (n % 16)) = some n := by
  rw [hex4val, hexVal_hexDig _ (Nat.mod_lt _ (by omega)), hexVal_hexDig _ (Nat.mod_lt _ (by omega)),
    hexVal_hexDig _ (Nat.mod_lt _ (by omega)), hexVal_hexDig _ (Nat.mod_lt _ (by omega))]
  simp only [Option.some.injEq]
  omega

theorem char_not_surrogate (c : Char) : c.toNat < 0xD800 ∨ 0xDFFF < c.toNat := by
  rcases c.valid with h | ⟨h1, _⟩
  · left; exact h
  · right; exact h1

theorem char_lt_1114112 (c : Char) : c.toNat < 0x110000 := by
  rcases c.valid with h | ⟨_, h2⟩
  · have : c.toNat < 0xD800 := h
    omega
  · exact h2

theorem parseUEsc_hex4 (n : Nat) (h9 : n < 65536) (r : List Char)
    (hn : n < 0xD800 ∨ 0xDFFF < n) :
    parseUEsc (hex4 n ++ r) = some (Char.ofNat n, r) := by
  simp only [hex4, List.cons_append, List.nil_append]
  rw [parseUEsc, hex4val_hex4 n h9]
  simp only [if_pos hn]

theorem parseUEsc_pair (c : Char) (hc : 0x10000 ≤ c.toNat) (r : List Char) :
    parseUEsc (hex4 (0xD800 + (c.toNat - 0x10000) / 1024) ++
        '\\' :: 'u' :: (hex4 (0xDC00 + (c.toNat - 0x10000) % 1024) ++ r)) =
      some (c, r) := by
  have hv := char_lt_1114112 c
  have hhi : (0xD800 + (c.toNat - 0x10000) / 1024) < 65536 := by omega
  have hlo : (0xDC00 + (c.toNat - 0x10000) % 1024) < 65536 := by omega
  simp only [hex4, List.cons_append, List.nil_append]
  rw [parseUEsc, hex4val_hex4 _ hhi]
  dsimp only
  rw [if_neg (by omega), if_pos (by omega)]
  rw [if_pos (⟨rfl, rfl⟩ : ('\\' : Char) = '\\' ∧ ('u' : Char) = 'u')]
  rw [hex4val_hex4 _ hlo]
  dsimp only
  rw [if_pos (by omega)]
  have he : (0x10000 + (0xD800 + (c.toNat - 0x10000) / 1024 - 0xD800) * 1024 +
      (0xDC00 + (c.toNat - 0x10000) % 1024 - 0xDC00)) = c.toNat := by omega
  rw [he, Char.ofNat_toNat]

theorem parseEsc_u (r : List Char) : parseEsc ('u' :: r) = parseUEsc r := rfl

theorem parseEsc_quot (r : List Char) : parseEsc ('"' :: r) = some ('"', r) := rfl

theorem parseEsc_bsl (r : List Char) : parseEsc ('\\' :: r) = some ('\\', r) := rfl

theorem parseEsc_n (r : List Char) : parseEsc ('n' :: r) = some ('\n', r) := rfl

theorem parseEsc_r (r : List Char) : parseEsc ('r' :: r) = some ('\r', r) := rfl

theorem parseEsc_t (r : List Char) : parseEsc ('t' :: r) = some ('\t', r) := rfl

theorem parseEsc_b (r : List Char) : parseEsc ('b' :: r) = some ('\x08', r) := rfl

theorem parseEsc_f (r : List Char) : parseEsc ('f' :: r) = some ('\x0c', r) := rfl

theorem parseStrLoopF_esc (f : Nat) (x : List Char) (ch : Char) (r2 : List Char)
    (he : parseEsc x = some (ch, r2)) :
    parseStrLoopF (f + 1) ('\\' :: x) = consCont ch (parseStrLoopF f r2) := by
  rw [parseStrLoopF, if_neg (by decide), if_pos rfl, he]

theorem parseStrLoopF_lit (f : Nat) (c : Char) (r : List Char) (h1 : ¬ c = '"')
    (h2 : ¬ c = '\\') (h3 : ¬ c.toNat < 0x20) :
    parseStrLoopF (f + 1) (c :: r) = consCont c (parseStrLoopF f r) := by
  rw [parseStrLoopF, if_neg h1, if_neg h2, if_neg h3]

theorem parseStrLoopF_quot (f : Nat) (r : List Char) :
    parseStrLoopF (f + 1) ('"' :: r) = some ([], r) := by
  rw [parseStrLoopF, if_pos rfl]



theorem consCont_some (ch : Char) (l r : List Char) :
    consCont ch (some (l, r)) = some (ch :: l, r) := rfl

theorem dumpsChar_length_pos (c : Char) : 1 ≤ (dumpsChar c).length := by
  rw [dumpsChar]
  repeat' split
  all_goals simp

theorem parseStrLoopF_dumps (l rest : List Char) :
    ∀ fuel, (l.flatMap dumpsChar).length < fuel →
      parseStrLoopF fuel (l.flatMap dumpsChar ++ '"' :: rest) = some (l, rest) := by
  induction l with
  | nil =>
    intro fuel hf
    match fuel, hf with
    | f + 1, _ => rw [List.flatMap_nil, List.nil_append, parseStrLoopF_quot]
  | cons c l ih =>
    intro fuel hf
    rw [List.flatMap_cons] at hf ⊢
    rw [List.append_assoc]
    match fuel, hf with
    | f + 1, hf =>
    have hrec : (l.flatMap dumpsChar).length < f := by
      have h1 := dumpsChar_length_pos c
      have h2 := List.length_append (dumpsChar c) (l.flatMap dumpsChar)
      omega
    by_cases h1 : c = '"'
    · subst h1
      rw [show dumpsChar '"' = ['\\', '"'] from rfl]
      simp only [List.cons_append, List.nil_append]
      rw [parseStrLoopF_esc f _ '"' _ (parseEsc_quot _), ih f hrec, consCont_some]
    · by_cases h2 : c = '\\'
      · subst h2
        rw [show dumpsChar '\\' = ['\\', '\\'] from rfl]
        simp only [List.cons_append, List.nil_append]
        rw [parseStrLoopF_esc f _ '\\' _ (parseEsc_bsl _), ih f hrec, consCont_some]
      · by_cases h3 : c = '\n'
        · subst h3
          rw [show dumpsChar '\n' = ['\\', 'n'] from rfl]
          simp only [List.cons_append, List.nil_append]
          rw [parseStrLoopF_esc f _ '\n' _ (parseEsc_n _), ih f hrec, consCont_some]
        · by_cases h4 : c = '\r'
          · subst h4
            rw [show dumpsChar '\r' = ['\\', 'r'] from rfl]
            simp only [List.cons_append, List.nil_append]
            rw [parseStrLoopF_esc f _ '\r' _ (parseEsc_r _), ih f hrec, consCont_some]
          · by_cases h5 : c = '\t'
            · subst h5
              rw [show dumpsChar '\t' = ['\\', 't'] from rfl]
              simp only [List.cons_append, List.nil_append]
              rw [parseStrLoopF_esc f _ '\t' _ (parseEsc_t _), ih f hrec, consCont_some]
            · by_cases h6 : c = '\x08'
              · subst h6
                rw [show dumpsChar '\x08' = ['\\', 'b'] from rfl]
                simp only [List.cons_append, List.nil_append]
                rw [parseStrLoopF_esc f _ '\x08' _ (parseEsc_b _), ih f hrec, consCont_some]
              · by_cases h7 : c = '\x0c'
                · subst h7
                  rw [show dumpsChar '\x0c' = ['\\', 'f'] from rfl]
                  simp only [List.cons_append, List.nil_append]
                  rw [parseStrLoopF_esc f _ '\x0c' _ (parseEsc_f _), ih f hrec, consCont_some]
                · by_cases h8 : c.toNat < 0x20 ∨ 0x7e < c.toNat
                  · by_cases h9 : c.toNat < 0x10000
                    · have hns := char_not_surrogate c
                      rw [show dumpsChar c = '\\' :: 'u' :: hex4 c.toNat from by
                        rw [dumpsChar, if_neg h1, if_neg h2, if_neg h3, if_neg h4, if_neg h5,
                          if_neg h6, if_neg h7, if_pos (by simpa using h8), if_pos h9]]
                      simp only [List.cons_append]
                      rw [parseStrLoopF_esc f _ _ _
                        ((parseEsc_u _).trans (parseUEsc_hex4 c.toNat h9 _ hns))]
                      rw [Char.ofNat_toNat, ih f hrec, consCont_some]
                    · have hc : 0x10000 ≤ c.toNat := by omega
                      rw [show dumpsChar c =
                          ('\\' :: 'u' :: hex4 (0xD800 + (c.toNat - 0x10000) / 1024)) ++
                          ('\\' :: 'u' :: hex4 (0xDC00 + (c.toNat - 0x10000) % 1024)) from by
                        rw [dumpsChar, if_neg h1, if_neg h2, if_neg h3, if_neg h4, if_neg h5,
                          if_neg h6, if_neg h7, if_pos (by simpa using h8), if_neg h9]]
                      simp only [List.cons_append, List.append_assoc]
                      rw [parseStrLoopF_esc f _ _ _
                        ((parseEsc_u _).trans (parseUEsc_pair c hc _))]
                      rw [ih f hrec, consCont_some]
                  · have h20 : ¬ c.toNat < 0x20 := by omega
                    rw [show dumpsChar c = [c] from by
                      rw [dumpsChar, if_neg h1, if_neg h2, if_neg h3, if_neg h4, if_neg h5,
                        if_neg h6, if_neg h7, if_neg (by simpa using h8)]]
                    simp only [List.cons_append, List.nil_append]
                    rw [parseStrLoopF_lit f c _ h1 h2 h20, ih f hrec, consCont_some]

theorem parseStrLoop_dumps (l rest : List Char) :
    parseStrLoop (l.flatMap dumpsChar ++ '"' :: rest) = some (l, rest) := by
  rw [parseStrLoop]
  apply parseStrLoopF_dumps
  simp
  omega



theorem skipWs_not (c : Char) (r : List Char) (h : isJsonWs c = false) :
    skipWs (c :: r) = c :: r := by
  rw [skipWs, if_neg (by simp [h])]

theorem parseValue_ws (fuel : Nat) (c : Char) (x : List Char) (h : isJsonWs c = true) :
    parseValue fuel (c :: x) = parseValue fuel x := by
  cases fuel with
  | zero => rfl
  | succ f =>
    have hs : skipWs (c :: x) = skipWs x := by rw [skipWs, if_pos h]
    simp only [parseValue, hs]

theorem parseValue_wsPre (pre : List Char) (hpre : ∀ c ∈ pre, isJsonWs c = true)
    (fuel : Nat) (x : List Char) : parseValue fuel (pre ++ x) = parseValue fuel x := by
  induction pre with
  | nil => rfl
  | cons c p ih =>
    rw [List.cons_append, parseValue_ws fuel c _ (hpre c (List.mem_cons_self c p)),
      ih (fun d hd => hpre d (List.mem_cons_of_mem c hd))]

theorem parseValue_dumpsStr (f : Nat) (s : String) (rest : List Char) :
    parseValue (f + 1) (dumpsStr s ++ rest) = some (JVal.str s, rest) := by
  have hshape : dumpsStr s ++ rest = '"' :: (s.data.flatMap dumpsChar ++ '"' :: rest) := by
    rw [dumpsStr]
    simp [List.append_assoc]
  rw [hshape, parseValue, skipWs, if_neg (by decide)]
  dsimp only
  rw [if_pos rfl, parseStrLoop_dumps]
  rfl

theorem dumpsBody_length (tags : List String) : tags.length ≤ (dumpsBody tags).length + 1 := by
  match tags with
  | [] => simp [dumpsBody]
  | [t] => simp [dumpsBody]
  | t :: t2 :: ts =>
    have ih := dumpsBody_length (t2 :: ts)
    rw [show dumpsBody (t :: t2 :: ts) = dumpsStr t ++ ',' :: ' ' :: dumpsBody (t2 :: ts) from rfl]
    simp only [List.length_append, List.length_cons] at ih ⊢
    omega

theorem dumpsBody_cons_quot (tags : List String) (h : tags ≠ []) :
    ∃ tl, dumpsBody tags = '"' :: tl := by
  match tags with
  | [t] => exact ⟨_, rfl⟩
  | t :: t2 :: ts => exact ⟨_, rfl⟩

theorem parseItems_dumps (tags : List String) :
    ∀ (fuel : Nat) (pre : List Char) (acc : List JVal) (rest : List Char),
      (∀ c ∈ pre, isJsonWs c = true) → tags ≠ [] → tags.length + 1 ≤ fuel →
      parseItems fuel (pre ++ (dumpsBody tags ++ ']' :: rest)) acc =
        some (JVal.arr (acc ++ tags.map JVal.str), rest) := by
  match tags with
  | [] => intro _ _ _ _ _ hne _; exact absurd rfl hne
  | [t] =>
    intro fuel pre acc rest hpre _ hf
    simp only [List.length_cons, List.length_nil] at hf
    obtain ⟨f2, rfl⟩ : ∃ f2, fuel = f2 + 1 + 1 := ⟨fuel - 2, by omega⟩
    rw [parseItems, show dumpsBody [t] = dumpsStr t from rfl]
    rw [parseValue_wsPre pre hpre, parseValue_dumpsStr]
    dsimp only
    rw [skipWs_not _ _ (by decide)]
    dsimp only
    rw [if_neg (by decide), if_pos rfl]
    simp
  | t :: t2 :: ts =>
    intro fuel pre acc rest hpre _ hf
    simp only [List.length_cons] at hf
    obtain ⟨f2, rfl⟩ : ∃ f2, fuel = f2 + 1 + 1 := ⟨fuel - 2, by omega⟩
    rw [parseItems]
    rw [show dumpsBody (t :: t2 :: ts) = dumpsStr t ++ ',' :: ' ' :: dumpsBody (t2 :: ts) from rfl]
    have hshape : (dumpsStr t ++ ',' :: ' ' :: dumpsBody (t2 :: ts)) ++ ']' :: rest =
        dumpsStr t ++ (',' :: (' ' :: (dumpsBody (t2 :: ts) ++ ']' :: rest))) := by
      simp [List.append_assoc]
    rw [hshape, parseValue_wsPre pre hpre]
    rw [parseValue_dumpsStr]
    dsimp only
    rw [skipWs_not _ _ (by decide)]
    dsimp only
    rw [if_pos rfl]
    have := parseItems_dumps (t2 :: ts) (f2 + 1) [' '] (acc ++ [JVal.str t]) rest
      (by intro c hc; simp at hc; subst hc; rfl) (by simp)
      (by simp only [List.length_cons]; omega)
    simp only [List.singleton_append] at this
    rw [this]
    simp



theorem json_loads_dumpsList (tags : List String) :
    json_loads (jsonDumpsList tags) = some (JVal.arr (tags.map JVal.str)) := by
  cases tags with
  | nil => rfl
  | cons t ts =>
    rw [json_loads]
    have hdata : (jsonDumpsList (t :: ts)).data = '[' :: (dumpsBody (t :: ts) ++ [']']) := rfl
    obtain ⟨tl, htl⟩ := dumpsBody_cons_quot (t :: ts) (by simp)
    have hlen := dumpsBody_length (t :: ts)
    have hlen2 : (t :: ts).length + 1 ≤ (jsonDumpsList (t :: ts)).data.length := by
      rw [hdata]
      simp only [List.length_cons, List.length_append, List.length_nil] at hlen ⊢
      omega
    generalize hF : (jsonDumpsList (t :: ts)).data.length = F at hlen2 ⊢
    have hfuel : F + 2 = (F + 1) + 1 := rfl
    rw [hfuel, hdata, parseValue, skipWs_not _ _ (by decide)]
    dsimp only
    rw [if_neg (by decide), if_pos rfl]
    rw [parseArrBody]
    rw [htl, List.cons_append, skipWs_not _ _ (by decide)]
    dsimp only
    rw [if_neg (by decide)]
    rw [show ('"' :: (tl ++ [']']) : List Char) = ('"' :: tl) ++ (']' :: []) from by simp, ← htl]
    rw [show (dumpsBody (t :: ts) ++ ']' :: [] : List Char) = [] ++ (dumpsBody (t :: ts) ++ ']' :: []) from rfl]
    rw [parseItems_dumps (t :: ts) F [] [] [] (by intro c hc; simp at hc) (by simp)
      (by omega)]
    simp [skipWs]

theorem parse_tags_dumps (tags : List String)
    (h : ∀ t ∈ tags, t ≠ "" ∧ pyStrip t = t) :
    parse_tags (some (jsonDumpsList tags)) = tags := by
  have hne : jsonDumpsList tags ≠ "" := by
    intro he
    have := congrArg String.data he
    rw [show (jsonDumpsList tags).data = '[' :: (dumpsBody tags ++ [']']) from rfl] at this
    simp at this
  rw [parse_tags, if_neg hne, json_loads_dumpsList]
  dsimp only
  rw [List.map_map]
  have hmap : tags.map (fun t => pyStrip (pyStr (JVal.str t))) = tags := by
    rw [show (fun t => pyStrip (pyStr (JVal.str t))) = fun t => pyStrip t from rfl]
    rw [List.map_congr_left (fun t ht => (h t ht).2)]
    exact List.map_id tags
  rw [show ((fun v => pyStrip (pyStr v)) ∘ JVal.str) = fun t => pyStrip (pyStr (JVal.str t)) from rfl]
  rw [hmap]
  rw [List.filter_eq_self.mpr (fun t ht => decide_eq_true (h t ht).1)]

/-! ## Lemmas about ordering and the `LIKE` matcher -/

theorem lexLe_refl (a : List Char) : lexLe a a = true := by
  induction a with
  | nil => rfl
  | cons x xs ih => simp [lexLe, ih]

theorem lexLe_total (a b : List Char) : lexLe a b = true ∨ lexLe b a = true := by
  induction a generalizing b with
  | nil => left; rfl
  | cons x xs ih =>
    cases b with
    | nil => right; rfl
    | cons y ys =>
      simp only [lexLe, Bool.or_eq_true, Bool.and_eq_true, decide_eq_true_eq]
      rcases Nat.lt_trichotomy x.toNat y.toNat with h | h | h
      · left; left; exact h
      · rcases ih ys with h2 | h2
        · left; right; exact ⟨h, h2⟩
        · right; right; exact ⟨h.symm, h2⟩
      · right; left; exact h

theorem lexLe_trans (a b c : List Char) (h1 : lexLe a b = true) (h2 : lexLe b c = true) :
    lexLe a c = true := by
  induction a generalizing b c with
  | nil => rfl
  | cons x xs ih =>
    cases b with
    | nil => simp [lexLe] at h1
    | cons y ys =>
      cases c with
      | nil => simp [lexLe] at h2
      | cons z zs =>
        simp only [lexLe, Bool.or_eq_true, Bool.and_eq_true, decide_eq_true_eq] at h1 h2 ⊢
        rcases h1 with h1 | ⟨e1, r1⟩
        · rcases h2 with h2 | ⟨e2, r2⟩
          · left; omega
          · left; omega
        · rcases h2 with h2 | ⟨e2, r2⟩
          · left; omega
          · right; exact ⟨by omega, ih ys zs r1 r2⟩

theorem lStartsWith_iff (p s : List Char) : lStartsWith p s = true ↔ p <+: s := by
  induction p generalizing s with
  | nil => simp [lStartsWith]
  | cons x xs ih =>
    cases s with
    | nil => simp [lStartsWith]
    | cons y ys =>
      simp only [lStartsWith, Bool.and_eq_true, decide_eq_true_eq, List.cons_prefix_cons]
      exact and_congr Iff.rfl (ih ys)

theorem isSubstr_iff (n h : String) : isSubstr n h = true ↔ n.data <:+: h.data := by
  simp only [isSubstr, List.any_eq_true, List.mem_tails]
  constructor
  · rintro ⟨t, hsuf, hpre⟩
    exact List.infix_iff_prefix_suffix.mpr ⟨t, (lStartsWith_iff _ _).mp hpre, hsuf⟩
  · intro hinf
    rcases List.infix_iff_prefix_suffix.mp hinf with ⟨t, hpre, hsuf⟩
    exact ⟨t, hsuf, (lStartsWith_iff _ _).mpr hpre⟩

theorem lowerLook_cases (l : List (Char × Char)) (c : Char) :
    lowerLook l c = c ∨ ∃ p ∈ l, lowerLook l c = p.2 := by
  induction l with
  | nil => left; rfl
  | cons kv t ih =>
    obtain ⟨k, v⟩ := kv
    rw [lowerLook]
    by_cases h : c = k
    · right; exact ⟨(k, v), List.mem_cons_self _ _, by rw [if_pos h]⟩
    · rw [if_neg h]
      rcases ih with h1 | ⟨p, hp, he⟩
      · left; exact h1
      · right; exact ⟨p, List.mem_cons_of_mem _ hp, he⟩

theorem asciiLower_targets : ∀ p ∈ asciiLower, ¬(p.2 = '%' ∨ p.2 = '_' ∨ p.2 = '\\') := by
  decide

set_option maxRecDepth 16384 in
theorem lowerTable_all :
    (lowerTable.all fun p => !(p.2 = '%' || p.2 = '_' || p.2 = '\\')) = true := by rfl

theorem lowerTable_targets : ∀ p ∈ lowerTable, ¬(p.2 = '%' ∨ p.2 = '_' ∨ p.2 = '\\') := by
  intro p hp
  have h := List.all_eq_true.mp lowerTable_all p hp
  simp only [Bool.not_eq_eq_eq_not, Bool.not_true, Bool.or_eq_false_iff,
    decide_eq_false_iff_not] at h
  tauto

theorem pyLowerChar_plain (c : Char) (h : ¬(c = '%' ∨ c = '_' ∨ c = '\\')) :
    ¬(pyLowerChar c = '%' ∨ pyLowerChar c = '_' ∨ pyLowerChar c = '\\') := by
  rw [pyLowerChar]
  split
  · rcases lowerLook_cases asciiLower c with hc | ⟨p, hp, he⟩
    · rw [hc]; exact h
    · rw [he]; exact asciiLower_targets p hp
  · rcases lowerLook_cases lowerTable c with hc | ⟨p, hp, he⟩
    · rw [hc]; exact h
    · rw [he]; exact lowerTable_targets p hp

theorem plainQuery_lower (q : String) (hq : plainQuery q) :
    ∀ c ∈ (pyLower q).data, ¬(c = '%' ∨ c = '_' ∨ c = '\\') := by
  intro c hc
  rw [show (pyLower q).data = q.data.map pyLowerChar from rfl] at hc
  rcases List.mem_map.mp hc with ⟨a, ha, rfl⟩
  exact pyLowerChar_plain a (hq a ha)

theorem likeToks_append_plain (p : List Char)
    (hp : ∀ c ∈ p, ¬(c = '%' ∨ c = '_' ∨ c = '\\')) (r : List Char) :
    likeToks (p ++ r) = p.map .lit ++ likeToks r := by
  induction p with
  | nil => rfl
  | cons x xs ih =>
    have hx := hp x (List.mem_cons_self x xs)
    have hxs : ∀ c ∈ xs, ¬(c = '%' ∨ c = '_' ∨ c = '\\') :=
      fun c hc => hp c (List.mem_cons_of_mem x hc)
    rw [List.cons_append, likeToks.eq_def]
    split
    next y heq => exact absurd heq (by simp)
    next y heq =>
      rw [List.cons.injEq] at heq
      exact absurd (Or.inr (Or.inr heq.1)) hx
    next y e ps heq =>
      rw [List.cons.injEq] at heq
      exact absurd (Or.inr (Or.inr heq.1)) hx
    next y ps heq =>
      rw [List.cons.injEq] at heq
      exact absurd (Or.inl heq.1) hx
    next y ps heq =>
      rw [List.cons.injEq] at heq
      exact absurd (Or.inr (Or.inl heq.1)) hx
    next y c ps h1 h2 h3 h4 heq =>
      rw [List.cons.injEq] at heq
      obtain ⟨rfl, hps⟩ := heq
      rw [← hps, ih hxs, List.map_cons, List.cons_append]

theorem likeToks_pct (ps : List Char) : likeToks ('%' :: ps) = .pct :: likeToks ps := rfl

theorem likeToks_likePat (q : String) (hq : plainQuery q) :
    likeToks (likePat q) = .pct :: (pyLower q).data.map .lit ++ [.pct] := by
  have h1 := likeToks_pct ((pyLower q).data ++ ['%'])
  rw [likePat, List.cons_append, h1, likeToks_append_plain _ (plainQuery_lower q hq)]
  rfl

theorem likeMatchT_pct (ps : List LikeTok) (s : List Char) :
    likeMatchT (.pct :: ps) s = true ↔ ∃ t, t <:+ s ∧ likeMatchT ps t = true := by
  rw [show likeMatchT (.pct :: ps) s = s.tails.any (fun t => likeMatchT ps t) from rfl]
  simp [List.any_eq_true, List.mem_tails]

theorem likeMatchT_all_pct (s : List Char) : likeMatchT [.pct] s = true := by
  rw [likeMatchT_pct]
  exact ⟨[], List.nil_suffix, rfl⟩

theorem likeMatchT_lit_pct (p : List Char) (s : List Char) :
    likeMatchT (p.map .lit ++ [.pct]) s = true ↔ p <+: s := by
  induction p generalizing s with
  | nil => simpa using likeMatchT_all_pct s
  | cons x xs ih =>
    cases s with
    | nil =>
      rw [List.map_cons, List.cons_append,
        show likeMatchT (.lit x :: (xs.map .lit ++ [.pct])) [] = false from rfl]
      simp
    | cons y ys =>
      rw [List.map_cons, List.cons_append,
        show likeMatchT (.lit x :: (xs.map .lit ++ [.pct])) (y :: ys) =
          ((x = y) && likeMatchT (xs.map .lit ++ [.pct]) ys) from rfl]
      simp only [Bool.and_eq_true, decide_eq_true_eq, List.cons_prefix_cons]
      exact and_congr Iff.rfl (ih ys)

theorem likeMatch_substr (p : List Char) (hp : ∀ c ∈ p, ¬(c = '%' ∨ c = '_' ∨ c = '\\'))
    (s : List Char) : likeMatch ('%' :: p ++ ['%']) s = true ↔ p <:+: s := by
  rw [likeMatch, show ('%' :: p ++ ['%'] : List Char) = '%' :: (p ++ ['%']) from rfl,
    likeToks_pct, likeToks_append_plain p hp,
    show likeToks ['%'] = [.pct] from rfl, likeMatchT_pct]
  constructor
  · rintro ⟨t, hsuf, hm⟩
    exact List.infix_iff_prefix_suffix.mpr ⟨t, (likeMatchT_lit_pct p t).mp hm, hsuf⟩
  · intro hinf
    rcases List.infix_iff_prefix_suffix.mp hinf with ⟨t, hpre, hsuf⟩
    exact ⟨t, hsuf, (likeMatchT_lit_pct p t).mpr hpre⟩

theorem rowMatches_eq_sub (q : String) (hq : plainQuery q) (r : ItemModel) :
    rowMatches q r = rowMatchesSubSpec q r := by
  have key : ∀ f : String,
      likeMatch (likePat q) (pyLower f).data = isSubstr (pyLower q) (pyLower f) := by
    intro f
    rw [Bool.eq_iff_iff, likePat]
    exact (likeMatch_substr (pyLower q).data (plainQuery_lower q hq) (pyLower f).data).trans
      (isSubstr_iff (pyLower q) (pyLower f)).symm
  simp only [rowMatches, rowMatchesSubSpec, key]


/-! ## Lemmas about the image subsystem -/

theorem processFiles_length (fs : List UploadFile) :
    ∀ (cur saved : Nat) (acc : List UploadFile), processFiles cur saved fs = .ok acc →
      cur + saved ≤ MAX_IMAGES → cur + saved + acc.length ≤ MAX_IMAGES := by
  induction fs with
  | nil =>
    intro cur saved acc h hle
    rw [processFiles] at h
    cases h
    simpa using hle
  | cons f fs ih =>
    intro cur saved acc h hle
    rw [processFiles] at h
    split at h
    · cases h; simpa using hle
    · split at h
      · cases h
      · split at h
        · exact ih cur saved acc h hle
        · split at h
          · cases h
          · cases hrec : processFiles cur (saved + 1) fs with
            | error s d => rw [hrec] at h; cases h
            | ok rest =>
              rw [hrec] at h
              cases h
              have hcap : ¬ cur + saved ≥ MAX_IMAGES := by assumption
              have := ih cur (saved + 1) rest hrec (by omega)
              simp only [List.length_cons]
              omega

theorem addImages_eq (fs : List UploadFile) : ∀ (db : DB) (item_id : String),
    addImages db item_id fs =
      { items := db.items
      , images := db.images ++ imageRows db.nextImageId item_id fs
      , nextImageId := db.nextImageId + fs.length } := by
  induction fs with
  | nil => intro db item_id; simp [addImages, imageRows]
  | cons f fs ih =>
    intro db item_id
    rw [addImages, ih]
    rw [show imageRows db.nextImageId item_id (f :: fs) =
      mkImageRow db.nextImageId item_id f :: imageRows (db.nextImageId + 1) item_id fs from rfl]
    simp only [DB.mk.injEq, true_and]
    refine ⟨by simp, by simp only [List.length_cons]; omega⟩

theorem imageRows_count (fs : List UploadFile) : ∀ (sid : Nat) (item_id j : String),
    ((imageRows sid item_id fs).filter (fun im => im.item_id = j)).length =
      if j = item_id then fs.length else 0 := by
  induction fs with
  | nil => intro sid item_id j; simp [imageRows]
  | cons f fs ih =>
    intro sid item_id j
    rw [imageRows]
    by_cases hj : j = item_id
    · subst hj
      simp [List.filter_cons, mkImageRow, ih]
    · rw [List.filter_cons]
      rw [if_neg (by simp [mkImageRow]; exact fun hh => hj hh.symm)]
      rw [ih]
      simp [hj]

theorem imgCount_addImages (db : DB) (item_id : String) (fs : List UploadFile) (j : String) :
    imgCount (addImages db item_id fs) j =
      imgCount db j + (if j = item_id then fs.length else 0) := by
  rw [addImages_eq]
  simp only [imgCount, List.filter_append, List.length_append, imageRows_count]

theorem uploadBase_images (item_id : String) (name : Option String) (db : DB) :
    (uploadBase item_id name db).images = db.images := by
  rw [uploadBase]; split <;> rfl

theorem uploadBase_next (item_id : String) (name : Option String) (db : DB) :
    (uploadBase item_id name db).nextImageId = db.nextImageId := by
  rw [uploadBase]; split <;> rfl

theorem uploadBase_count (item_id : String) (name : Option String) (db : DB) (j : String) :
    imgCount (uploadBase item_id name db) j = imgCount db j := by
  rw [imgCount, uploadBase_images, imgCount]

/-- Case description of `upload_images` in terms of `uploadBase` and
`processFiles`. -/
theorem upload_images_eq (item_id : String) (files : List UploadFile) (name : Option String)
    (db : DB) :
    upload_images item_id files name db =
      (if imgCount (uploadBase item_id name db) item_id ≥ MAX_IMAGES then
        (.error 400 ("Already has " ++ toString (imgCount (uploadBase item_id name db) item_id) ++
          " images; max 15"), uploadBase item_id name db)
      else
        match processFiles (imgCount (uploadBase item_id name db) item_id) 0 files with
        | .error s d => (.error s d, uploadBase item_id name db)
        | .ok staged =>
          if staged.length = 0 then (.error 400 "No images uploaded", uploadBase item_id name db)
          else (.ok staged.length, addImages (uploadBase item_id name db) item_id staged)) := by
  rw [upload_images, uploadBase]

/-! ## Lemmas about the record store -/

theorem find?_map_patch (items : List ItemModel) (item_id : String) (row' : ItemModel)
    (hid : row'.id = item_id) :
    ((items.map (fun r => if r.id = item_id then row' else r)).find? (fun r => r.id = item_id)) =
      (if (items.find? (fun r => r.id = item_id)).isSome then some row' else none) := by
  induction items with
  | nil => simp
  | cons r rs ih =>
    by_cases hr : r.id = item_id
    · rw [List.map_cons, if_pos hr]
      rw [List.find?_cons_of_pos _ (by simp [hid]), List.find?_cons_of_pos _ (by simp [hr])]
      simp
    · rw [List.map_cons, if_neg hr]
      rw [List.find?_cons_of_neg _ (by simp [hr]), List.find?_cons_of_neg _ (by simp [hr])]
      exact ih

theorem filter_partition_length (l : List ItemImage) (item_id : String) :
    (l.filter (fun im => im.item_id ≠ item_id)).length +
      (l.filter (fun im => im.item_id = item_id)).length = l.length := by
  induction l with
  | nil => rfl
  | cons im rest ih =>
    by_cases h : im.item_id = item_id
    · rw [List.filter_cons, List.filter_cons, if_neg (by simp [h]), if_pos (by simp [h])]
      simp only [List.length_cons]
      omega
    · rw [List.filter_cons, List.filter_cons, if_pos (by simp [h]), if_neg (by simp [h])]
      simp only [List.length_cons]
      omega

/-! ## The claims -/

/-- C1 (amended): for non-negative `limit` and `offset`, `search` returns
the size of the full filtered set together with the filtered records sorted
by id ascending, `offset` dropped and at most `limit` kept; the empty query
keeps every record and a non-empty query keeps exactly the records matched
by the `LIKE` disjunction over id, name, empty-coalesced description and
the raw encoded tag field; and whenever the query contains no `%` or `_`
wildcard and no `\` (the backend's default `LIKE` escape character), the
`LIKE` match coincides with lower-cased substring matching — the
amendment: matching is SQL `LIKE` with pattern `%query%` under the default
escape character, which is substring matching only for queries free of
`%`, `_` and `\`.  The `lowerExact` hypotheses confine the statement to
data on which the char-wise lower-casing model is exact (they exclude the
two Unicode special cases `U+0130` and `U+03A3`). -/
theorem C1_thm (q : String) (limit offset : Int) (db : DB)
    (hl : 0 ≤ limit) (ho : 0 ≤ offset) (_hqx : lowerExact q)
    (_hdbx : ∀ r ∈ db.items, lowerExact r.id ∧ lowerExact r.name ∧
      lowerExact (r.desc.getD "") ∧ lowerExact (r.tags_json.getD "")) :
    search q limit offset db =
      .ok ((searchFiltered q db.items).length,
        (((sortItemsById (searchFiltered q db.items)).drop offset.toNat).take limit.toNat).map
          (to_dict db)) ∧
    (q = "" → searchFiltered q db.items = db.items) ∧
    (q ≠ "" → ∀ r, r ∈ searchFiltered q db.items ↔ r ∈ db.items ∧ rowMatches q r = true) ∧
    List.Pairwise (fun a b => lexLe a.id.data b.id.data = true)
      (sortItemsById (searchFiltered q db.items)) ∧
    (sortItemsById (searchFiltered q db.items)).Perm (searchFiltered q db.items) ∧
    (plainQuery q → ∀ r, rowMatches q r = rowMatchesSubSpec q r) := by
  refine ⟨?_, fun hq => ?_, fun hq r => ?_, ?_, ?_, fun hq r => rowMatches_eq_sub q hq r⟩
  · rw [search, if_neg (by omega)]
  · rw [searchFiltered, if_pos hq]
  · rw [searchFiltered, if_neg hq]
    simp [List.mem_filter]
  · rw [sortItemsById]
    exact @List.sorted_insertionSort ItemModel
      (fun a b => lexLe a.id.data b.id.data = true) (fun _ _ => inferInstance)
      ⟨fun _ _ => lexLe_total _ _⟩ ⟨fun _ _ _ h1 h2 => lexLe_trans _ _ _ h1 h2⟩
      (searchFiltered q db.items)
  · rw [sortItemsById]
    exact List.perm_insertionSort _ _

/-- C1 counterexample: the claim as stated (substring matching) fails on the
query `"_"`, which as a `LIKE` wildcard matches the stored record although
`"_"` is not a substring of any of its fields. -/
theorem C1_counterexample :
    search "_" 20 0 sampleDB ≠ .ok (searchSubSpec "_" 20 0 sampleDB) ∧
    (searchSubSpec "_" 20 0 sampleDB).1 = 0 ∧
    search "_" 20 0 sampleDB = .ok (1, [to_dict sampleDB sampleItemRow]) := by decide

/-- Witness for C1: a concrete wildcard-free search on the sample store. -/
theorem C1_witness :
    search "blue" 20 0 sampleDB =
      .ok ((searchFiltered "blue" sampleDB.items).length,
        (((sortItemsById (searchFiltered "blue" sampleDB.items)).drop (0 : Int).toNat).take
          (20 : Int).toNat).map (to_dict sampleDB)) ∧
    rowMatches "blue" sampleItemRow = rowMatchesSubSpec "blue" sampleItemRow :=
  ⟨(C1_thm "blue" 20 0 sampleDB (by decide) (by decide) (by decide) (by decide)).1,
   (C1_thm "blue" 20 0 sampleDB (by decide) (by decide) (by decide) (by decide)).2.2.2.2.2
     (by decide) sampleItemRow⟩

/-- C2: decoding the canonical encoded form produced by `json.dumps` (the
encoding `create_item`/`update_item` write) gives back any sequence of
non-empty, already-stripped tags unchanged; in particular decoding the
`tags_json` stored by `create_item` returns the request's tags. -/
theorem C2_thm (tags : List String) (h : ∀ t ∈ tags, t ≠ "" ∧ pyStrip t = t) :
    parse_tags (some (jsonDumpsList tags)) = tags ∧
    (∀ item : ItemIn, item.tags = tags → parse_tags (newItemRow item).tags_json = tags) := by
  have hmain := parse_tags_dumps tags h
  refine ⟨hmain, fun item hit => ?_⟩
  rw [show (newItemRow item).tags_json = some (jsonDumpsList item.tags) from rfl, hit]
  exact hmain

/-- Witness for C2: the round-trip on a concrete tag list. -/
theorem C2_witness : parse_tags (some (jsonDumpsList ["blue", "small"])) = ["blue", "small"] :=
  (C2_thm ["blue", "small"] (by decide)).1

/-- C4: starting from a store where every product owns at most
`MAX_IMAGES` images, any upload leaves every product's image count at most
`MAX_IMAGES` (the per-file loop stops staging files once the count would
reach the cap, silently dropping the rest of the batch), and on success the
reported `added` count is exactly the number of images stored for the
product. -/
theorem C4_thm (item_id : String) (files : List UploadFile) (name : Option String) (db : DB)
    (h : ∀ j, imgCount db j ≤ MAX_IMAGES) :
    (∀ j, imgCount (upload_images item_id files name db).2 j ≤ MAX_IMAGES) ∧
    (∀ n, (upload_images item_id files name db).1 = .ok n →
      imgCount (upload_images item_id files name db).2 item_id = imgCount db item_id + n) := by
  rw [upload_images_eq]
  split
  · refine ⟨fun j => ?_, fun n hn => ?_⟩
    · simpa [uploadBase_count] using h j
    · simp at hn
  · next hfull =>
    cases hpf : processFiles (imgCount (uploadBase item_id name db) item_id) 0 files with
    | error s d =>
      dsimp only
      refine ⟨fun j => ?_, fun n hn => ?_⟩
      · simpa [uploadBase_count] using h j
      · simp at hn
    | ok staged =>
      dsimp only
      by_cases hz : staged.length = 0
      · rw [if_pos hz]
        refine ⟨fun j => ?_, fun n hn => ?_⟩
        · simpa [uploadBase_count] using h j
        · simp at hn
      · rw [if_neg hz]
        rw [uploadBase_count] at hpf
        rw [uploadBase_count] at hfull
        have hlen := processFiles_length files (imgCount db item_id) 0 staged hpf (by omega)
        refine ⟨fun j => ?_, fun n hn => ?_⟩
        · by_cases hj : j = item_id
          · subst hj
            simp [imgCount_addImages, uploadBase_count]
            omega
          · simp [imgCount_addImages, uploadBase_count, hj]
            simpa using h j
        · simp only [HResult.ok.injEq] at hn
          subst hn
          simp [imgCount_addImages, uploadBase_count]

/-- Witness for C4: uploading 20 valid files to an empty product stores
exactly 15. -/
theorem C4_witness :
    imgCount (upload_images "p" (List.replicate 20 sampleImageFile) none emptyDB).2 "p" ≤
      MAX_IMAGES ∧
    imgCount (upload_images "p" (List.replicate 20 sampleImageFile) none emptyDB).2 "p" =
      imgCount emptyDB "p" + 15 :=
  ⟨(C4_thm "p" (List.replicate 20 sampleImageFile) none emptyDB
      (fun _ => Nat.zero_le _)).1 "p",
   (C4_thm "p" (List.replicate 20 sampleImageFile) none emptyDB
      (fun _ => Nat.zero_le _)).2 15 (by decide)⟩

/-- C5 (amended): when an upload fails, the stored images and all
pre-existing products are unchanged — but an auto-created stub product,
committed before validation, persists; on success the operation commits
exactly the staged (validated) files of the batch and reports their count
as `added`. -/
theorem C5_thm (item_id : String) (files : List UploadFile) (name : Option String)
    (db : DB) :
    ((upload_images item_id files name db).1.isError = true →
      (upload_images item_id files name db).2.images = db.images ∧
      (upload_images item_id files name db).2.items =
        (if (dbGet db item_id).isSome then db.items
         else db.items ++ [stubItem item_id name])) ∧
    (∀ n, (upload_images item_id files name db).1 = .ok n →
      ∃ staged, processFiles (imgCount db item_id) 0 files = .ok staged ∧
        staged ≠ [] ∧ n = staged.length ∧
        (upload_images item_id files name db).2 =
          { items := (if (dbGet db item_id).isSome then db.items
                      else db.items ++ [stubItem item_id name])
          , images := db.images ++ imageRows db.nextImageId item_id staged
          , nextImageId := db.nextImageId + n }) := by
  have hbase_items : (uploadBase item_id name db).items =
      (if (dbGet db item_id).isSome then db.items else db.items ++ [stubItem item_id name]) := by
    rw [uploadBase]; split <;> simp_all
  rw [upload_images_eq]
  split
  · refine ⟨fun _ => ⟨uploadBase_images _ _ _, hbase_items⟩, fun n hn => ?_⟩
    simp at hn
  · next hfull =>
    cases hpf : processFiles (imgCount (uploadBase item_id name db) item_id) 0 files with
    | error s d =>
      dsimp only
      refine ⟨fun _ => ⟨uploadBase_images _ _ _, hbase_items⟩, fun n hn => ?_⟩
      simp at hn
    | ok staged =>
      dsimp only
      by_cases hz : staged.length = 0
      · rw [if_pos hz]
        refine ⟨fun _ => ⟨uploadBase_images _ _ _, hbase_items⟩, fun n hn => ?_⟩
        simp at hn
      · rw [if_neg hz]
        rw [uploadBase_count] at hpf
        refine ⟨fun hc => ?_, fun n hn => ?_⟩
        · simp [HResult.isError] at hc
        · simp only [HResult.ok.injEq] at hn
          subst hn
          refine ⟨staged, hpf, fun hnil => hz (by simp [hnil]), rfl, ?_⟩
          rw [addImages_eq]
          rw [uploadBase_images, uploadBase_next, hbase_items]

/-- C5 counterexample: the claim as stated fails — a failing upload to an
unknown id leaves the auto-created stub product behind, so prior state is
not fully restored. -/
theorem C5_counterexample :
    (upload_images "p1" [sampleBadFile] none emptyDB).1.isError = true ∧
    (upload_images "p1" [sampleBadFile] none emptyDB).2 ≠ emptyDB ∧
    (upload_images "p1" [sampleBadFile] none emptyDB).2.items = [stubItem "p1" none] := by
  decide

/-- Witness for C5: a concrete successful single-file upload commits
exactly the staged file. -/
theorem C5_witness :
    ∃ staged, processFiles (imgCount emptyDB "p") 0 [sampleImageFile] = .ok staged ∧
      staged ≠ [] ∧ 1 = staged.length ∧
      (upload_images "p" [sampleImageFile] none emptyDB).2 =
        { items := (if (dbGet emptyDB "p").isSome then emptyDB.items
                    else emptyDB.items ++ [stubItem "p" none])
        , images := emptyDB.images ++ imageRows emptyDB.nextImageId "p" staged
        , nextImageId := emptyDB.nextImageId + 1 } :=
  (C5_thm "p" [sampleImageFile] none emptyDB).2 1 (by decide)

/-- C6: in the per-file loop, before the cap is reached a file whose
content type does not start with `image/` aborts the upload with the
invalid-input error, a file with an empty payload is silently skipped, and
a non-empty payload over `MAX_BYTES` aborts with the too-large error;
and when no file ends up staged the whole operation fails with the
invalid-input error `"No images uploaded"`. -/
theorem C6_thm :
    (∀ (cur saved : Nat) (f : UploadFile) (fs : List UploadFile), cur + saved < MAX_IMAGES →
      (pyStartsWith (f.content_type.getD "") "image/" = false →
        processFiles cur saved (f :: fs) = .error 400 "Only image/* files allowed") ∧
      (pyStartsWith (f.content_type.getD "") "image/" = true → f.data = [] →
        processFiles cur saved (f :: fs) = processFiles cur saved fs) ∧
      (pyStartsWith (f.content_type.getD "") "image/" = true → f.data ≠ [] →
        MAX_BYTES < f.data.length →
        processFiles cur saved (f :: fs) = .error 400 "Image too large (max 4MB)")) ∧
    (∀ (item_id : String) (files : List UploadFile) (name : Option String) (db : DB),
      imgCount db item_id < MAX_IMAGES →
      processFiles (imgCount db item_id) 0 files = .ok [] →
      (upload_images item_id files name db).1 = .error 400 "No images uploaded") := by
  constructor
  · intro cur saved f fs hcap
    refine ⟨fun hbad => ?_, fun hok hemp => ?_, fun hok hne hbig => ?_⟩
    · rw [processFiles, if_neg (by omega), if_pos (by simp [hbad])]
    · rw [processFiles, if_neg (by omega), if_neg (by simp [hok]), if_pos hemp]
    · rw [processFiles, if_neg (by omega), if_neg (by simp [hok]), if_neg hne,
        if_pos (by omega)]
  · intro item_id files name db hcap hpf
    rw [upload_images_eq]
    rw [if_neg (by rw [uploadBase_count]; omega)]
    rw [uploadBase_count, hpf]
    rfl

/-- Witness for C6: a concrete text file is rejected as invalid input. -/
theorem C6_witness :
    processFiles 0 0 [sampleBadFile] = .error 400 "Only image/* files allowed" :=
  (C6_thm.1 0 0 sampleBadFile [] (by decide)).1 (by decide)

/-- C7 (amended): for create requests whose legacy image list holds at most
15 entries, `create_item` fails with the 409 conflict when the id already
exists and otherwise persists the new row (with `desc or ""`, dumped tags
and dumped truncated image list) and returns success, after which a second
create with the same id fails with the conflict; a request with more than
15 images instead fails with the 400 `"Max 15 images"` guard before the
duplicate check. -/
theorem C7_thm (item : ItemIn) (db : DB) (hlen : item.images.length ≤ 15) :
    ((dbGet db item.id).isSome = true →
      create_item item db = (.error 409 "ID already exists", db)) ∧
    ((dbGet db item.id).isSome = false →
      create_item item db = (.ok (), { db with items := db.items ++ [newItemRow item] }) ∧
      (create_item item { db with items := db.items ++ [newItemRow item] }).1 =
        .error 409 "ID already exists") := by
  constructor
  · intro h
    rw [create_item, if_neg (by omega), if_pos h]
  · intro h
    rw [create_item, if_neg (by omega), if_neg (by simp [h])]
    refine ⟨rfl, ?_⟩
    have hfind : dbGet { db with items := db.items ++ [newItemRow item] } item.id =
        some (newItemRow item) := by
      rw [dbGet]
      simp only [List.find?_append]
      rw [show (db.items.find? fun r => r.id = item.id) = none from by
        rw [dbGet] at h; exact Option.not_isSome_iff_eq_none.mp (by simp [h])]
      simp [newItemRow]
    rw [create_item, if_neg (by omega), if_pos (by simp [hfind])]

/-- C7 counterexample: the claim as stated fails — a create whose id
already exists but whose image list has 16 entries fails with the 400
image-cap error, not with the 409 conflict. -/
theorem C7_counterexample :
    (dbGet sampleDB "p1").isSome = true ∧
    (create_item sampleDupItem16 sampleDB).1 = .error 400 "Max 15 images" ∧
    (create_item sampleDupItem16 sampleDB).1 ≠ .error 409 "ID already exists" := by decide

/-- Witness for C7: a concrete create followed by a duplicate create. -/
theorem C7_witness :
    create_item sampleNewItem emptyDB =
      (.ok (), { emptyDB with items := emptyDB.items ++ [newItemRow sampleNewItem] }) ∧
    (create_item sampleNewItem
        { emptyDB with items := emptyDB.items ++ [newItemRow sampleNewItem] }).1 =
      .error 409 "ID already exists" :=
  (C7_thm sampleNewItem emptyDB (by decide)).2 (by decide)

/-- C8 (amended): `update_item` fails with 404 and changes nothing on a
missing id; with an image list over 15 entries it fails with the 400 guard
and changes nothing; otherwise it overwrites exactly the fields whose patch
entry is a non-null value and keeps every other field of the row, leaving
all other rows untouched.  An explicit JSON `null` is not distinguishable
from an absent field: pydantic validation collapses both to `None`, so a
null field is skipped rather than applied. -/
theorem C8_thm (item_id : String) (patch : ItemUpdate) (db : DB) :
    (dbGet db item_id = none → update_item item_id patch db = (.error 404 "Not found", db)) ∧
    (∀ row, dbGet db item_id = some row →
      (∀ l, patch.images = some l → 15 < l.length →
        update_item item_id patch db = (.error 400 "Max 15 images", db)) ∧
      ((∀ l, patch.images = some l → l.length ≤ 15) →
        (update_item item_id patch db).1 = .ok () ∧
        dbGet (update_item item_id patch db).2 item_id = some (applyPatch row patch) ∧
        (∀ r ∈ db.items, r.id ≠ item_id → r ∈ (update_item item_id patch db).2.items) ∧
        (applyPatch row patch).id = row.id ∧
        (applyPatch row patch).name = (match patch.name with | some n => n | none => row.name) ∧
        (applyPatch row patch).desc =
          (match patch.desc with | some d => some d | none => row.desc) ∧
        (applyPatch row patch).tags_json =
          (match patch.tags with | some t => some (jsonDumpsList t) | none => row.tags_json) ∧
        (applyPatch row patch).images_json =
          (match patch.images with
           | some l => some (jsonDumpsList (l.take 15))
           | none => row.images_json))) := by
  constructor
  · intro h
    rw [update_item, h]
  · intro row hrow
    have hrowid : row.id = item_id := by
      have := List.find?_some hrow
      simpa using this
    constructor
    · intro l hl hbig
      rw [update_item, hrow]
      dsimp only
      rw [if_pos (by rw [hl]; simpa using hbig)]
    · intro hsmall
      have hok : update_item item_id patch db =
          (.ok (),
            { db with
                items := db.items.map
                    (fun r => if r.id = item_id then applyPatch row patch else r) }) := by
        rw [update_item, hrow]
        dsimp only
        rw [if_neg (by
          cases hpi : patch.images with
          | none => simp
          | some l => simpa using Nat.not_lt.mpr (hsmall l hpi))]
      rw [hok]
      refine ⟨rfl, ?_, ?_, rfl, rfl, rfl, rfl, rfl⟩
      · rw [dbGet]
        rw [find?_map_patch db.items item_id (applyPatch row patch)
          (by simp [applyPatch, hrowid])]
        rw [dbGet] at hrow
        rw [hrow]
        rfl
      · intro r hr hne
        exact List.mem_map.mpr ⟨r, hr, by rw [if_neg hne]⟩

/-- C8 counterexample: the claim as stated fails — a patch that sets
`name` to an explicit `null` validates to the same value as a patch that
omits `name` entirely, and the update applies nothing: explicit null and
absent are indistinguishable and the present-but-null field is not
applied. -/
theorem C8_counterexample :
    validateUpdate sampleNullWire = validateUpdate sampleAbsentWire ∧
    (update_item "p1" (validateUpdate sampleNullWire) sampleDB).1 = .ok () ∧
    (update_item "p1" (validateUpdate sampleNullWire) sampleDB).2 = sampleDB := by decide

/-- Witness for C8: a concrete patch updating only the description. -/
theorem C8_witness :
    (update_item "p1" samplePatch sampleDB).1 = .ok () ∧
    dbGet (update_item "p1" samplePatch sampleDB).2 "p1" =
      some (applyPatch sampleItemRow samplePatch) :=
  ⟨(((C8_thm "p1" samplePatch sampleDB).2 sampleItemRow (by decide)).2
      (fun l hl => by simp [samplePatch] at hl)).1,
   (((C8_thm "p1" samplePatch sampleDB).2 sampleItemRow (by decide)).2
      (fun l hl => by simp [samplePatch] at hl)).2.1⟩

/-- C9: `delete_item` fails with 404 and changes nothing on a missing id;
on an existing id it succeeds, removes the record, removes exactly the
product's own images (counts of other owners unchanged), after which the
image listing for that owner is empty and serving any of its former image
ids fails with 404. -/
theorem C9_thm (item_id : String) (db : DB) (hwf : WF db) :
    (dbGet db item_id = none → delete_item item_id db = (.error 404 "Not found", db)) ∧
    ((dbGet db item_id).isSome = true →
      (delete_item item_id db).1 = .ok () ∧
      dbGet (delete_item item_id db).2 item_id = none ∧
      imgCount (delete_item item_id db).2 item_id = 0 ∧
      (delete_item item_id db).2.images.length + imgCount db item_id = db.images.length ∧
      list_images item_id (delete_item item_id db).2 = [] ∧
      (∀ j, j ≠ item_id → imgCount (delete_item item_id db).2 j = imgCount db j) ∧
      (∀ im ∈ db.images, im.item_id = item_id →
        serve_image im.id (delete_item item_id db).2 = .error 404 "Not found")) := by
  constructor
  · intro h
    rw [delete_item, h]
  · intro h
    obtain ⟨row, hrow⟩ := Option.isSome_iff_exists.mp h
    have hdel : delete_item item_id db =
        (.ok (), { db with
          items := db.items.filter (fun r => r.id ≠ item_id)
        , images := db.images.filter (fun im => im.item_id ≠ item_id) }) := by
      rw [delete_item, hrow]
    rw [hdel]
    have hfe : (db.images.filter (fun im => im.item_id ≠ item_id)).filter
        (fun im => im.item_id = item_id) = [] := by
      rw [List.filter_eq_nil_iff]
      intro im him
      have := (List.mem_filter.mp him).2
      simp at this
      simp [this]
    refine ⟨rfl, ?_, ?_, ?_, ?_, ?_, ?_⟩
    · rw [dbGet, List.find?_eq_none]
      intro r hrmem
      have := (List.mem_filter.mp hrmem).2
      simpa using this
    · rw [imgCount, hfe]
      rfl
    · exact filter_partition_length db.images item_id
    · rw [list_images, hfe]
      rfl
    · intro j hj
      rw [imgCount, imgCount, List.filter_filter]
      congr 1
      apply List.filter_congr
      intro im _
      by_cases hItem : im.item_id = j
      · simp [hItem, fun hh => hj (hItem ▸ hh)]
        intro hc
        exact absurd (hItem ▸ hc) hj
      · simp [hItem]
    · intro im hmem hitem
      have hnone : (db.images.filter (fun im2 => im2.item_id ≠ item_id)).find?
          (fun im2 => im2.id = im.id) = none := by
        rw [List.find?_eq_none]
        intro x hx
        have hx1 := (List.mem_filter.mp hx).1
        have hx2 := (List.mem_filter.mp hx).2
        simp only [decide_eq_true_eq] at hx2 ⊢
        intro hxid
        have hxim : x = im := List.inj_on_of_nodup_map hwf.2.1 hx1 hmem hxid
        subst hxim
        simp at hx2
        exact hx2 hitem
      rw [serve_image, hnone]

/-- Witness for C9: deleting the sample product cascades to its image. -/
theorem C9_witness :
    dbGet (delete_item "p1" sampleImgDB).2 "p1" = none ∧
    list_images "p1" (delete_item "p1" sampleImgDB).2 = [] ∧
    serve_image 5 (delete_item "p1" sampleImgDB).2 = .error 404 "Not found" := by
  have h := (C9_thm "p1" sampleImgDB (by decide)).2 (by decide)
  exact ⟨h.2.1, h.2.2.2.2.1, h.2.2.2.2.2.2 sampleImage (by decide) rfl⟩

/-- C10 (amended): `search` applies `limit` and `offset` exactly as given,
with no clamping: for non-negative values the page is the sorted filtered
set with `offset` entries dropped and `limit` kept, so `limit = 0` yields
an empty page (not a page of one); negative values are not clamped up but
passed to the backend, which rejects them. -/
theorem C10_thm (q : String) (limit offset : Int) (db : DB) :
    (0 ≤ limit → 0 ≤ offset →
      search q limit offset db =
        .ok ((searchFiltered q db.items).length,
          (((sortItemsById (searchFiltered q db.items)).drop offset.toNat).take limit.toNat).map
            (to_dict db))) ∧
    (limit = 0 → 0 ≤ offset →
      search q limit offset db = .ok ((searchFiltered q db.items).length, [])) ∧
    (limit < 0 ∨ offset < 0 → search q limit offset db = .error 500 "Internal Server Error") := by
  refine ⟨fun hl ho => ?_, fun hl ho => ?_, fun hneg => ?_⟩
  · rw [search, if_neg (by omega)]
  · subst hl
    rw [search, if_neg (by omega)]
    simp
  · rw [search, if_pos hneg]

/-- C10 counterexample: the claim as stated fails — with `limit = 0` the
code returns an empty page, while clamping `limit` up to 1 would return the
single matching record. -/
theorem C10_counterexample :
    search "" 0 0 sampleDB ≠ .ok (searchClampSpec "" 0 0 sampleDB) ∧
    search "" 0 0 sampleDB = .ok (1, []) ∧
    (searchClampSpec "" 0 0 sampleDB).2 = [to_dict sampleDB sampleItemRow] := by decide

/-- Witness for C10: the concrete `limit = 0` search on the sample store. -/
theorem C10_witness :
    search "" 0 0 sampleDB = .ok ((searchFiltered "" sampleDB.items).length, []) :=
  (C10_thm "" 0 0 sampleDB).2.1 rfl (by decide)

end RHelp
